import Mathlib

/-! # Frame loop and render-scene bookkeeping

A shallow embedding of

* `Controller::Run`, `Controller::Draw` and `Controller::FrameStats`
  (`Example Programs/Shading and Textures/Controller.cpp`), and
* the keyed stores, vendor-call wrappers, per-frame constant buffers and draw
  recording of `RenderScene` (`FA Rendering Engine/Source Files/FARenderScene.cpp`).

Calls into the windowing system, the rendering engine and the graphics API are
recorded as events; the results those calls hand back (a pending window
message, a result code, a created handle) are inputs of the model.
-/

namespace MVC

/-! ## Controller::Run -/

/-- The fields of a window message that `Controller::Run` reads. -/
structure MSG where
  message : Nat
  wParam : Nat
deriving DecidableEq, Repr

/-- The quit message of the windowing system (`WM_QUIT`, 0x0012). -/
def WM_QUIT : Nat := 0x0012

/-- Calls made by `Controller::Run`, in the order the source makes them. -/
inductive RunCall where
  | InitializeTime
  | Reset
  | TranslateMessage (msg : MSG)
  | DispatchMessage (msg : MSG)
  | Tick
  | FrameStats
  | UserInput
  | Update
  | Draw
deriving DecidableEq, Repr

/-- What one pass of the message loop observes: the message `PeekMessage`
dequeued (`none` when no message is pending) and the value of
`mView->GetIsMainWindowActive()`. -/
structure Poll where
  peeked : Option MSG
  isMainWindowActive : Bool
deriving DecidableEq, Repr

/-- Body of the `while` loop of `Controller::Run` (Controller.cpp, lines 291-307). -/
def RunIteration (p : Poll) : List RunCall :=
  match p.peeked with
  | some msg => [RunCall.TranslateMessage msg, RunCall.DispatchMessage msg]
  | none =>
    RunCall.Tick ::
      (if p.isMainWindowActive then
        [RunCall.FrameStats, RunCall.UserInput, RunCall.Update, RunCall.Draw]
      else [])

/-- The `while (msg.message != WM_QUIT)` loop of `Controller::Run`, run against a
finite script of observations. Returns every iteration that was executed,
paired with what it observed, and the last message held in `msg`. -/
def RunLoop (msg : MSG) : List Poll → List (Poll × List RunCall) × MSG
  | [] => ([], msg)
  | p :: rest =>
    if msg.message = WM_QUIT then ([], msg)
    else
      let r := RunLoop (match p.peeked with | some m => m | none => msg) rest
      ((p, RunIteration p) :: r.1, r.2)

/-- The whole of `Controller::Run`: `MSG msg{}`, the two timer calls, the loop, and
`(int)msg.wParam` once the loop has seen `WM_QUIT` (`none` while the script has
not delivered it). -/
def Run (polls : List Poll) : List RunCall × Option Int :=
  let r := RunLoop { message := 0, wParam := 0 } polls
  ([RunCall.InitializeTime, RunCall.Reset] ++ (r.1.map Prod.snd).flatten,
    if r.2.message = WM_QUIT then some (Int.bmod (r.2.wParam : Int) (2 ^ 32)) else none)

/-! ## Controller::Draw -/

/-- Render options compared against in `Controller::Draw`. Their declaration is not
part of the sources at hand; the five enumerators are the ones the function names. -/
inductive RenderOption where
  | TEXTURES_PLUS_SHADING
  | TEXTURES_PLUS_NO_SHADING
  | COLOR_PLUS_SHADING
  | COLOR_PLUS_NO_SHADING
  | WIREFRAME
deriving DecidableEq, Repr

/-- Keys of the pipeline state objects named in `Controller::Draw`. -/
inductive PSOKey where
  | EARTH_SHADING_PSO
  | MOON_SUN_SHADING_PSO
  | EARTH_MOON_SUN_NO_SHADING_PSO
  | COLOR_SHADING_PSO
  | COLOR_NO_SHADING_PSO
  | WIREFRAME_PSO
deriving DecidableEq, Repr

/-- Keys of the root signatures named in `Controller::Draw`. -/
inductive RootSigKey where
  | EARTH_SHADING_ROOT_SIG
  | MOON_SUN_SHADING_ROOT_SIG
  | EARTH_MOON_SUN_NO_SHADING_ROOT_SIG
  | COLOR_SHADING_ROOT_SIG
deriving DecidableEq, Repr

/-- Buffer kinds passed to `LinkStaticBuffer` and `LinkDynamicBuffer`. -/
inductive BufferType where
  | VERTEX_BUFFER
  | INDEX_BUFFER
  | CONSTANT_BUFFER
deriving DecidableEq, Repr

/-- Keys of the buffers named in `Controller::Draw`. -/
inductive BufferKey where
  | SHAPES_VERTEX_BUFFER
  | SHAPES_INDEX_BUFFER
  | PASSCB
  | MATERIALCB
  | LIGHTCB
deriving DecidableEq, Repr

/-- The shape handed to `ShapesEngine::RenderShape`: the model's current shape
(`mModel->GetShape(i)`) or the shape of a point light
(`mModel->GetPointLight(i).GetShape()`). -/
inductive ShapeRef where
  | shape (index : Nat)
  | pointLight (index : Nat)
deriving DecidableEq, Repr

/-- Calls `Controller::Draw` makes on the scene, `ShapesEngine::RenderShape(_, scene)`
included. The bodies of these calls are not among the sources; each is taken to
return normally. -/
inductive SceneCall where
  | BeforeRenderObjects
  | LinkTextureViewHeap
  | LinkPSOAndRootSignature (psoKey : PSOKey) (rootSigKey : RootSigKey)
  | LinkTexture (rootParameterIndex : Nat) (textureViewIndex : Nat)
  | LinkStaticBuffer (bufferType : BufferType) (key : BufferKey)
  | LinkDynamicBuffer (bufferType : BufferType) (key : BufferKey)
      (indexConstantData : Nat) (rootParameterIndex : Nat)
  | RenderShape (shape : ShapeRef)
  | AfterRenderObjects
  | AfterRender
deriving DecidableEq, Repr

/-- The view settings `Controller::Draw` reads. -/
structure View where
  currentRenderOption : RenderOption
  currentTexture : Nat
  currentLightSource : Nat
  currentShape : Nat
deriving DecidableEq, Repr

/-- Arithmetic on `unsigned int` wraps at 2^32. -/
def UINT_RANGE : Nat := 2 ^ 32

/-- The unsigned sum `a + b`. -/
def uadd (a b : Nat) : Nat := (a + b) % UINT_RANGE

/-- The unsigned difference `a - b` for `b` no larger than 2^32. -/
def usub (a b : Nat) : Nat := (a % UINT_RANGE + (UINT_RANGE - b)) % UINT_RANGE

/-- First `if`/`else if` chain of `Controller::Draw` (Controller.cpp, lines 203-247):
the pipeline state, root signature and texture for the current shape. `EARTH` is
the value of the texture enumerator of that name. -/
def DrawLinkMainPipeline (EARTH : Nat) (view : View) : List SceneCall :=
  if view.currentRenderOption = RenderOption.TEXTURES_PLUS_SHADING then
    if view.currentTexture = EARTH then
      [SceneCall.LinkPSOAndRootSignature PSOKey.EARTH_SHADING_PSO RootSigKey.EARTH_SHADING_ROOT_SIG,
       SceneCall.LinkTexture 4 2]
    else
      [SceneCall.LinkPSOAndRootSignature PSOKey.MOON_SUN_SHADING_PSO
         RootSigKey.MOON_SUN_SHADING_ROOT_SIG,
       SceneCall.LinkTexture 4 (usub view.currentTexture 1)]
  else if view.currentRenderOption = RenderOption.TEXTURES_PLUS_NO_SHADING then
    SceneCall.LinkPSOAndRootSignature PSOKey.EARTH_MOON_SUN_NO_SHADING_PSO
        RootSigKey.EARTH_MOON_SUN_NO_SHADING_ROOT_SIG ::
      (if view.currentTexture = EARTH then
        [SceneCall.LinkTexture 4 (uadd view.currentTexture 2)]
      else
        [SceneCall.LinkTexture 4 (usub view.currentTexture 1)])
  else if view.currentRenderOption = RenderOption.COLOR_PLUS_SHADING then
    [SceneCall.LinkPSOAndRootSignature PSOKey.COLOR_SHADING_PSO RootSigKey.COLOR_SHADING_ROOT_SIG]
  else if view.currentRenderOption = RenderOption.COLOR_PLUS_NO_SHADING then
    [SceneCall.LinkPSOAndRootSignature PSOKey.COLOR_NO_SHADING_PSO
       RootSigKey.COLOR_SHADING_ROOT_SIG]
  else if view.currentRenderOption = RenderOption.WIREFRAME then
    [SceneCall.LinkPSOAndRootSignature PSOKey.WIREFRAME_PSO RootSigKey.COLOR_SHADING_ROOT_SIG]
  else []

/-- The point-light block of `Controller::Draw` (Controller.cpp, lines 262-273). -/
def DrawPointLights (view : View) : List SceneCall :=
  if view.currentRenderOption = RenderOption.TEXTURES_PLUS_SHADING ∨
      view.currentRenderOption = RenderOption.COLOR_PLUS_SHADING then
    [SceneCall.LinkPSOAndRootSignature PSOKey.EARTH_MOON_SUN_NO_SHADING_PSO
       RootSigKey.EARTH_MOON_SUN_NO_SHADING_ROOT_SIG,
     SceneCall.LinkTexture 4 1] ++
      (List.range (uadd view.currentLightSource 1)).map
        (fun i => SceneCall.RenderShape (ShapeRef.pointLight i))
  else []

/-- The calls of `Controller::Draw` on the scene, in source order
(Controller.cpp, lines 194-279). -/
def Draw (EARTH : Nat) (view : View) : List SceneCall :=
  [SceneCall.BeforeRenderObjects, SceneCall.LinkTextureViewHeap] ++
  DrawLinkMainPipeline EARTH view ++
  [SceneCall.LinkStaticBuffer BufferType.VERTEX_BUFFER BufferKey.SHAPES_VERTEX_BUFFER,
   SceneCall.LinkStaticBuffer BufferType.INDEX_BUFFER BufferKey.SHAPES_INDEX_BUFFER,
   SceneCall.LinkDynamicBuffer BufferType.CONSTANT_BUFFER BufferKey.PASSCB 0 1,
   SceneCall.LinkDynamicBuffer BufferType.CONSTANT_BUFFER BufferKey.MATERIALCB 0 2,
   SceneCall.LinkDynamicBuffer BufferType.CONSTANT_BUFFER BufferKey.LIGHTCB 0 3,
   SceneCall.RenderShape (ShapeRef.shape view.currentShape)] ++
  DrawPointLights view ++
  [SceneCall.AfterRenderObjects, SceneCall.AfterRender]

/-- Whether a scene call is a `RenderShape`. -/
def SceneCall.isRenderShape : SceneCall → Bool
  | SceneCall.RenderShape _ => true
  | _ => false

/-- Whether a scene call is a `LinkPSOAndRootSignature`. -/
def SceneCall.isLinkPSOAndRootSignature : SceneCall → Bool
  | SceneCall.LinkPSOAndRootSignature _ _ => true
  | _ => false

/-- Whether a scene call is a `LinkTexture`. -/
def SceneCall.isLinkTexture : SceneCall → Bool
  | SceneCall.LinkTexture _ _ => true
  | _ => false

/-- The scene calls `Controller::Draw` makes for the main shape: everything before
the first `RenderShape`. -/
def mainShapeCalls (EARTH : Nat) (view : View) : List SceneCall :=
  (Draw EARTH view).takeWhile (fun c => !c.isRenderShape)

/-- The pipeline state and root signature links among the calls for the main shape. -/
def mainShapePipeline (EARTH : Nat) (view : View) : List SceneCall :=
  (mainShapeCalls EARTH view).filter SceneCall.isLinkPSOAndRootSignature

/-! ## Single-precision numbers -/

/-- A value of type `float` (IEEE 754 binary32): a finite number, given as the
integer `units` for the number `units * 2^-149` (2^-149 is the least positive
`float` and every finite `float` is a multiple of it; 1.0f is `finite (2 ^ 149)`),
an infinity, or a NaN. The sign of a zero is not tracked. -/
inductive Float32 where
  | finite (units : Int)
  | inf (negative : Bool)
  | nan
deriving DecidableEq, Repr

/-- Halves `n` until it is below 2, at most `fuel` times, and counts the halvings. -/
def Float32.log2Fuel : Nat → Nat → Nat
  | 0, _ => 0
  | fuel + 1, n => if n < 2 then 0 else Float32.log2Fuel fuel (n / 2) + 1

/-- The position of the leading binary digit of `n` (0 for `n` below 2). -/
def Float32.floorLog2 (n : Nat) : Nat := Float32.log2Fuel n n

/-- The integer nearest to `q / d`, the even one of the two when `q / d` lies half
way between them. -/
def Float32.roundHalfEven (q d : Nat) : Nat :=
  if 2 * (q % d) < d then q / d
  else if d < 2 * (q % d) then q / d + 1
  else if (q / d) % 2 = 0 then q / d else q / d + 1

/-- Rounding to nearest, ties to even: the `float` nearest to the number of
magnitude `(q / d) * 2^-149` and the given sign. A `float` has 24 significant
binary digits, so the spacing of the candidates is one unit below 2^24 units and
2^(e - 23) units from 2^e units on; magnitudes that round to 2^128 or more
overflow to the infinity. -/
def Float32.roundUnits (negative : Bool) (q d : Nat) : Float32 :=
  let ulp := 2 ^ (Float32.floorLog2 (q / d) - 23)
  let r := Float32.roundHalfEven q (d * ulp) * ulp
  if 2 ^ 128 * 2 ^ 149 ≤ r then Float32.inf negative
  else Float32.finite (if negative then -(r : Int) else (r : Int))

/-- The conversion `(float)n` of an unsigned integer. -/
def Float32.ofNat (n : Nat) : Float32 := Float32.roundUnits false (n * 2 ^ 149) 1

/-- The sum `a + b` of two `float` values. -/
def Float32.add : Float32 → Float32 → Float32
  | Float32.finite a, Float32.finite b =>
    Float32.roundUnits (decide (a + b < 0)) (a + b).natAbs 1
  | Float32.finite _, Float32.inf n => Float32.inf n
  | Float32.inf n, Float32.finite _ => Float32.inf n
  | Float32.inf m, Float32.inf n => if m = n then Float32.inf m else Float32.nan
  | _, _ => Float32.nan

/-- The quotient `a / b` of two `float` values; a zero divisor is taken as the
positive zero, the only zero `(float)n` produces. -/
def Float32.div : Float32 → Float32 → Float32
  | Float32.finite a, Float32.finite b =>
    if b = 0 then
      if a = 0 then Float32.nan else Float32.inf (decide (a < 0))
    else Float32.roundUnits (decide (a < 0) != decide (b < 0)) (a.natAbs * 2 ^ 149) b.natAbs
  | Float32.finite _, Float32.inf _ => Float32.finite 0
  | Float32.inf m, Float32.finite b => Float32.inf (m != decide (b < 0))
  | _, _ => Float32.nan

/-- The comparison `a >= b` of two `float` values; it is false when either is a NaN. -/
def Float32.ge : Float32 → Float32 → Bool
  | Float32.finite a, Float32.finite b => decide (b ≤ a)
  | Float32.finite _, Float32.inf n => n
  | Float32.inf m, Float32.finite _ => !m
  | Float32.inf m, Float32.inf n => !m || n
  | _, _ => false

/-! ## Controller::FrameStats -/

/-- The two function-local statics of `Controller::FrameStats`: the `unsigned int`
frame counter and the `float` accumulated time. -/
structure FrameStatsState where
  frameCount : Nat
  timeElapsed : Float32
deriving DecidableEq, Repr

/-- The two `float` values `Controller::FrameStats` writes into the window title
(the streams print them with six significant digits). -/
structure FrameReport where
  fps : Float32
  milliSecondsPerFrame : Float32
deriving DecidableEq, Repr

/-- The function `Controller::FrameStats` (Controller.cpp, lines 35-68): the statics
after the call and, when `SetWindowText` is called, the two numbers in its text.
`deltaTime` is `mModel->GetFrameTime().deltaTime`, a `float`. -/
def FrameStats (st : FrameStatsState) (deltaTime : Float32) :
    FrameStatsState × Option FrameReport :=
  let frameCount := (st.frameCount + 1) % UINT_RANGE
  let timeElapsed := Float32.add st.timeElapsed deltaTime
  if Float32.ge timeElapsed (Float32.ofNat 1) = true then
    let fps := Float32.ofNat frameCount
    let milliSecondsPerFrame := Float32.div (Float32.ofNat 1000) fps
    ({ frameCount := 0, timeElapsed := Float32.ofNat 0 },
      some { fps := fps, milliSecondsPerFrame := milliSecondsPerFrame })
  else
    ({ frameCount := frameCount, timeElapsed := timeElapsed }, none)

end MVC

namespace FARender

/-! ## Exceptions, result codes and the operation monad -/

/-- Result code of a graphics API call. -/
abbrev HRESULT := Int

/-- The `FAILED` test on a result code: negative codes are failures. -/
def FAILED (hr : HRESULT) : Bool := decide (hr < 0)

/-- The exceptions the render scene lets escape: the one `std::unordered_map::at`
and `std::vector::at` throw, and the one `ThrowIfFailed` throws. -/
inductive Exception where
  | out_of_range
  | DirectXException (hr : HRESULT)
deriving DecidableEq, Repr

/-- An operation on a state `σ`: it ends with a value or with a thrown exception,
and in both cases leaves a state behind. -/
def Op (σ α : Type) : Type := σ → Except Exception α × σ

/-- An operation that returns without touching the state. -/
def Op.ret {σ α : Type} (a : α) : Op σ α := fun s => (Except.ok a, s)

/-- Sequencing: the second operation runs only when the first did not throw. -/
def Op.seq {σ α β : Type} (m : Op σ α) (f : α → Op σ β) : Op σ β := fun s =>
  match m s with
  | (Except.ok a, s1) => f a s1
  | (Except.error e, s1) => (Except.error e, s1)

instance (σ : Type) : Monad (Op σ) where
  pure := Op.ret
  bind := Op.seq

/-- Throwing an exception. -/
def Op.throw {σ α : Type} (e : Exception) : Op σ α := fun s => (Except.error e, s)

/-- Reading the current state. -/
def Op.read {σ : Type} : Op σ σ := fun s => (Except.ok s, s)

/-- Updating the current state. -/
def Op.write {σ : Type} (f : σ → σ) : Op σ Unit := fun s => (Except.ok (), f s)

/-- Running a lookup that may throw. -/
def Op.lift {σ α : Type} (r : Except Exception α) : Op σ α := fun s => (r, s)

/-- Modelled from the spec: the `ThrowIfFailed` macro of FADirectXException.h, which
is not among the sources; a failing result code is converted to a thrown
exception, any other code lets execution continue. -/
def ThrowIfFailed {σ : Type} (hr : HRESULT) : Op σ Unit :=
  if FAILED hr then Op.throw (Exception.DirectXException hr) else Op.ret ()

/-! ## Keyed stores -/

/-- A `std::unordered_map`, kept as a list of entries with at most one entry per key
in every map built by `assign`, `subscript` and `erase` from the empty map. -/
structure Map (K V : Type) where
  entries : List (K × V)
deriving DecidableEq, Repr

/-- The empty map. -/
def Map.empty {K V : Type} : Map K V := { entries := [] }

/-- The value mapped to `key`, if any. -/
def Map.find? {K V : Type} [DecidableEq K] (m : Map K V) (key : K) : Option V :=
  (m.entries.find? (fun e => decide (e.1 = key))).map Prod.snd

/-- The lookup `unordered_map::at`: the mapped value, or `out_of_range`. -/
def Map.atKey {K V : Type} [DecidableEq K] (m : Map K V) (key : K) : Except Exception V :=
  match m.find? key with
  | some v => Except.ok v
  | none => Except.error Exception.out_of_range

/-- The call `unordered_map::erase(key)`: removes the entry when there is one and
returns normally in either case. -/
def Map.erase {K V : Type} [DecidableEq K] (m : Map K V) (key : K) : Map K V :=
  { entries := m.entries.filter (fun e => decide (e.1 ≠ key)) }

/-- The assignment `m[key] = v`: inserts or replaces. -/
def Map.assign {K V : Type} [DecidableEq K] (m : Map K V) (key : K) (v : V) : Map K V :=
  { entries := (key, v) :: (m.erase key).entries }

/-! ## Data held by the scene -/

/-- A handle held in a `ComPtr`: empty, or the identity of an API object. -/
abbrev ComPtr := Option Nat

/-- A byte buffer (`ID3DBlob`): `GetBufferPointer` and `GetBufferSize` read `bytes`. -/
structure Blob where
  bytes : List Nat
deriving DecidableEq, Repr

/-- The fields of `D3D12_INPUT_ELEMENT_DESC` that identify an input element. -/
structure InputElementDesc where
  semanticName : String
  semanticIndex : Nat
  format : Nat
  inputSlot : Nat
  byteOffset : Nat
deriving DecidableEq, Repr

/-- The fields of `D3D12_RASTERIZER_DESC` that `CreateRasterizationState` takes from its
caller; every other field is a fixed constant there. -/
structure RasterizerDesc where
  FillMode : Nat
  MultisampleEnable : Bool
deriving DecidableEq, Repr

/-- The root parameter `CreateCBVHeap` fills in (`mCBVHeapRootParameter`): a
descriptor table with one range of constant buffer views. -/
structure RootParameter where
  NumDescriptors : Nat
  BaseShaderRegister : Nat
deriving DecidableEq, Repr

/-- Arguments of one draw call (`FAShapes::DrawArguments`). -/
structure DrawArguments where
  indexCount : Nat
  locationOfFirstIndex : Nat
  indexOfFirstVertex : Int
  indexOfConstantData : Int
deriving DecidableEq, Repr

/-- The value type of `mSceneObjects`: the members the scene reads and writes. -/
structure DrawSettings where
  pipelineState : ComPtr
  rootSig : ComPtr
  prim : Nat
  drawArgs : List DrawArguments
deriving DecidableEq, Repr

/-- Four floating-point components (`FAMath::Vector4D`, `FAColor::Color`); the scene
only stores and forwards them. -/
structure Float4 where
  x : Rat
  y : Rat
  z : Rat
  w : Rat
deriving DecidableEq, Repr

/-- The value type of `mTexts` (`FARender::Text`). -/
structure Text where
  textLocation : Float4
  textString : String
  textSize : Rat
  textColor : Float4
deriving DecidableEq, Repr

/-- The pipeline description `CreatePSO` hands to the device. Blend state, sample
mask, depth-stencil state, render target count and sample quality are fixed
constants in the source and are left out. -/
structure PipelineStateDesc where
  pRootSignature : ComPtr
  VS : List Nat
  PS : List Nat
  RasterizerState : RasterizerDesc
  InputLayout : List InputElementDesc
  PrimitiveTopologyType : Nat
  RTVFormat : Nat
  DSVFormat : Nat
  SampleCount : Nat
deriving DecidableEq, Repr

/-- The root signature description `CreateRootSignature` serializes: its parameters;
static samplers (none) and flags are fixed constants in the source. -/
structure RootSignatureDesc where
  pParameters : List RootParameter
deriving DecidableEq, Repr

/-- Calls into the graphics, text and debug APIs, with the arguments that vary. -/
inductive VendorCall where
  | D3DCreateBlob (size : Nat)
  | CreateGraphicsPipelineState (desc : PipelineStateDesc)
  | D3D12SerializeRootSignature (desc : RootSignatureDesc)
  | OutputDebugStringA (message : List Nat)
  | CreateRootSignature (serialized : Blob)
  | CreateSolidColorBrush (color : Float4)
  | CreateTextFormat (fontSize : Rat)
  | SetTextAlignment
  | SetParagraphAlignment
  | DrawTextW (text : String) (length : Nat) (format : ComPtr) (rect : Float4) (brush : ComPtr)
deriving DecidableEq, Repr

/-- Calls on `mDeviceResources` made by `AfterDraw`. -/
inductive DeviceCall where
  | Present
  | UpdateCurrentFrameFenceValue
  | Signal
deriving DecidableEq, Repr

/-- A descriptor handle obtained from the start of the constant buffer view heap by
`Offset(offsetInDescriptors, descriptorIncrementSize)`. -/
structure DescriptorHandle where
  offsetInDescriptors : Nat
  descriptorIncrementSize : Nat
deriving DecidableEq, Repr

/-- Commands `DrawObjects` records into the command list. -/
inductive Command where
  | SetPipelineState (pipelineState : ComPtr)
  | SetGraphicsRootSignature (rootSig : ComPtr)
  | IASetPrimitiveTopology (prim : Nat)
  | SetGraphicsRootDescriptorTable (rootParameterIndex : Nat) (handle : DescriptorHandle)
  | DrawIndexedInstanced (indexCountPerInstance : Nat) (instanceCount : Nat)
      (startIndexLocation : Nat) (baseVertexLocation : Int) (startInstanceLocation : Nat)
deriving DecidableEq, Repr

/-- Whether a command is a `DrawIndexedInstanced`. -/
def Command.isDraw : Command → Bool
  | Command.DrawIndexedInstanced _ _ _ _ _ => true
  | _ => false

/-- One element of `mConstantBuffer`: the number of bytes allocated (`none` before
the buffer is created) and the bytes of the mapped memory. -/
structure ConstantBuffer where
  allocated : Option Nat
  mappedData : List Nat
deriving DecidableEq, Repr

/-- A constant buffer view held in a slot of the descriptor heap: the frame whose
buffer it describes, the index of the constant data in that buffer, and the size
of that data. -/
structure ConstantBufferView where
  frame : Nat
  cBufferIndex : Nat
  numBytes : Nat
deriving DecidableEq, Repr

/-- What the world outside the scene answers: file contents, the formats held by
the device resources, and the result code and object of every API call. -/
structure Vendor where
  file : String → Option (List Nat)
  backBufferFormat : Nat
  depthStencilFormat : Nat
  D3DCreateBlob : Nat → HRESULT × Blob
  CreateGraphicsPipelineState : PipelineStateDesc → HRESULT × ComPtr
  D3D12SerializeRootSignature : RootSignatureDesc → HRESULT × Blob × Option Blob
  CreateRootSignature : Blob → HRESULT × ComPtr
  CreateSolidColorBrush : Float4 → HRESULT × ComPtr
  CreateTextFormat : Rat → HRESULT × ComPtr
  SetTextAlignment : HRESULT
  SetParagraphAlignment : HRESULT

/-- The members of `RenderScene` (FARenderScene.cpp) the operations below use, and the
calls made so far. `mConstantBuffer` is the array of per-frame constant buffers,
`mCBVHeap` the descriptor heap by slot, `currentFrame` and `cbvSize` what
`mDeviceResources.GetCurrentFrame()` and `GetCBVSize()` return, and `commandList`
the commands recorded into `mDeviceResources.GetCommandList()`. -/
structure RenderScene where
  mShaders : Map String Blob
  mInputElementDescriptions : Map String (List InputElementDesc)
  mRasterizationStates : Map String RasterizerDesc
  mSceneObjects : Map String DrawSettings
  mTexts : Map String Text
  mCBVHeapRootParameter : RootParameter
  vendorCalls : List VendorCall := []
  deviceCalls : List DeviceCall := []
  mConstantBuffer : List ConstantBuffer := []
  mCBVHeap : Map Nat ConstantBufferView := { entries := [] }
  currentFrame : Nat := 0
  cbvSize : Nat := 0
  commandList : List Command := []
deriving DecidableEq, Repr

/-- Records a call into an API. -/
def call (c : VendorCall) : Op RenderScene Unit :=
  Op.write (fun s => { s with vendorCalls := s.vendorCalls ++ [c] })

/-! ## Keyed accessors (FARenderScene.cpp, lines 22-80) -/

/-- The function `RenderScene::GetShader` (FARenderScene.cpp, lines 22-25). -/
def GetShader (name : String) : Op RenderScene Blob := do
  let s ← Op.read
  Op.lift (s.mShaders.atKey name)

/-- The function `RenderScene::GetInputElementLayout` (FARenderScene.cpp, lines 27-30). -/
def GetInputElementLayout (name : String) : Op RenderScene (List InputElementDesc) := do
  let s ← Op.read
  Op.lift (s.mInputElementDescriptions.atKey name)

/-- The function `RenderScene::GetRasterizationState` (FARenderScene.cpp, lines 32-35). -/
def GetRasterizationState (name : String) : Op RenderScene RasterizerDesc := do
  let s ← Op.read
  Op.lift (s.mRasterizationStates.atKey name)

/-- The function `RenderScene::GetPSO` (FARenderScene.cpp, lines 37-40). -/
def GetPSO (drawSettingsName : String) : Op RenderScene ComPtr := do
  let s ← Op.read
  let settings ← Op.lift (s.mSceneObjects.atKey drawSettingsName)
  pure settings.pipelineState

/-- The function `RenderScene::GetRootSignature` (FARenderScene.cpp, lines 42-45). -/
def GetRootSignature (drawSettingsName : String) : Op RenderScene ComPtr := do
  let s ← Op.read
  let settings ← Op.lift (s.mSceneObjects.atKey drawSettingsName)
  pure settings.rootSig

/-- The function `RenderScene::GetPrimitive` (FARenderScene.cpp, lines 47-50). -/
def GetPrimitive (drawSettingsName : String) : Op RenderScene Nat := do
  let s ← Op.read
  let settings ← Op.lift (s.mSceneObjects.atKey drawSettingsName)
  pure settings.prim

/-- The function `RenderScene::GetText` (FARenderScene.cpp, lines 72-80; both
overloads have the same body). -/
def GetText (textName : String) : Op RenderScene Text := do
  let s ← Op.read
  Op.lift (s.mTexts.atKey textName)

/-! ## Shaders (FARenderScene.cpp, lines 82-109) -/

/-- The size `LoadShader` computes: `(int)fin.tellg()` at the end of the file, which
is -1 when the file could not be opened, converted to the `SIZE_T` that
`D3DCreateBlob` takes. -/
def shaderFileSize (api : Vendor) (filename : String) : Nat :=
  match api.file filename with
  | some bytes => (Int.bmod (bytes.length : Int) (2 ^ 32) % (2 ^ 64 : Int)).toNat
  | none => ((-1 : Int) % (2 ^ 64 : Int)).toNat

/-- The function `RenderScene::LoadShader` (FARenderScene.cpp, lines 82-104). -/
def LoadShader (api : Vendor) (filename name : String) : Op RenderScene Unit := do
  let size := shaderFileSize api filename
  call (VendorCall.D3DCreateBlob size)
  let created := api.D3DCreateBlob size
  ThrowIfFailed created.1
  let blob : Blob :=
    match api.file filename with
    | some bytes => { bytes := bytes.take size ++ created.2.bytes.drop size }
    | none => created.2
  Op.write (fun s => { s with mShaders := s.mShaders.assign name blob })

/-- The function `RenderScene::RemoveShader` (FARenderScene.cpp, lines 106-109). -/
def RemoveShader (shaderName : String) : Op RenderScene Unit :=
  Op.write (fun s => { s with mShaders := s.mShaders.erase shaderName })

/-! ## Pipeline state and root signature (FARenderScene.cpp, lines 153-223) -/

/-- The description `CreatePSO` fills in before it calls the device
(FARenderScene.cpp, lines 157-187). -/
def pipelineStateDescription (api : Vendor) (settings : DrawSettings) (vs ps : Blob)
    (rasterizer : RasterizerDesc) (layout : List InputElementDesc)
    (primitiveType sampleCount : Nat) : PipelineStateDesc :=
  { pRootSignature := settings.rootSig
    VS := vs.bytes
    PS := ps.bytes
    RasterizerState := rasterizer
    InputLayout := layout
    PrimitiveTopologyType := primitiveType
    RTVFormat := api.backBufferFormat
    DSVFormat := api.depthStencilFormat
    SampleCount := sampleCount }

/-- The function `RenderScene::CreatePSO` (FARenderScene.cpp, lines 153-192). -/
def CreatePSO (api : Vendor) (drawSettingsName rStateName vsName psName inputLayoutName : String)
    (primitiveType sampleCount : Nat) : Op RenderScene Unit := do
  let s ← Op.read
  let settings ← Op.lift (s.mSceneObjects.atKey drawSettingsName)
  let vs ← Op.lift (s.mShaders.atKey vsName)
  let ps ← Op.lift (s.mShaders.atKey psName)
  let rasterizer ← Op.lift (s.mRasterizationStates.atKey rStateName)
  let layout ← Op.lift (s.mInputElementDescriptions.atKey inputLayoutName)
  let pState := pipelineStateDescription api settings vs ps rasterizer layout primitiveType
    sampleCount
  call (VendorCall.CreateGraphicsPipelineState pState)
  let created := api.CreateGraphicsPipelineState pState
  ThrowIfFailed created.1
  let s1 ← Op.read
  let target ← Op.lift (s1.mSceneObjects.atKey drawSettingsName)
  let updated : DrawSettings := { target with pipelineState := created.2 }
  Op.write (fun t => { t with mSceneObjects := t.mSceneObjects.assign drawSettingsName updated })

/-- The function `RenderScene::CreateRootSignature` (FARenderScene.cpp, lines 194-223). -/
def CreateRootSignature (api : Vendor) (drawSettingsName : String) : Op RenderScene Unit := do
  let s ← Op.read
  let rootSignatureDescription : RootSignatureDesc := { pParameters := [s.mCBVHeapRootParameter] }
  call (VendorCall.D3D12SerializeRootSignature rootSignatureDescription)
  let serialized := api.D3D12SerializeRootSignature rootSignatureDescription
  match serialized.2.2 with
    | some error => call (VendorCall.OutputDebugStringA error.bytes)
    | none => pure ()
  ThrowIfFailed serialized.1
  call (VendorCall.CreateRootSignature serialized.2.1)
  let created := api.CreateRootSignature serialized.2.1
  ThrowIfFailed created.1
  let s1 ← Op.read
  let target ← Op.lift (s1.mSceneObjects.atKey drawSettingsName)
  let updated : DrawSettings := { target with rootSig := created.2 }
  Op.write (fun t => { t with mSceneObjects := t.mSceneObjects.assign drawSettingsName updated })

/-! ## Text and presentation (FARenderScene.cpp, lines 422-470) -/

/-- The function `RenderScene::RenderText` (FARenderScene.cpp, lines 422-454). -/
def RenderText (api : Vendor) (textName : String) : Op RenderScene Unit := do
  let s ← Op.read
  let textToRender ← Op.lift (s.mTexts.atKey textName)
  let textLocation := textToRender.textLocation
  let textColor := textToRender.textColor
  call (VendorCall.CreateSolidColorBrush textColor)
  let brush := api.CreateSolidColorBrush textColor
  ThrowIfFailed brush.1
  call (VendorCall.CreateTextFormat textToRender.textSize)
  let format := api.CreateTextFormat textToRender.textSize
  ThrowIfFailed format.1
  call VendorCall.SetTextAlignment
  ThrowIfFailed api.SetTextAlignment
  call VendorCall.SetParagraphAlignment
  ThrowIfFailed api.SetParagraphAlignment
  call (VendorCall.DrawTextW textToRender.textString
    (textToRender.textString.length % 2 ^ 32) format.2 textLocation brush.2)

/-- The function `RenderScene::AfterDraw` (FARenderScene.cpp, lines 461-470). -/
def AfterDraw : Op RenderScene Unit :=
  Op.write (fun s => { s with deviceCalls := s.deviceCalls ++
    [DeviceCall.Present, DeviceCall.UpdateCurrentFrameFenceValue, DeviceCall.Signal] })

/-! ## Constant buffers and drawing (FARenderScene.cpp, lines 274-290, 385-408, 491-494) -/

/-- Modelled from the spec: the member function `CreateConstantBuffer(device,
numOfBytes)` of the buffer class, whose definition is not among the sources;
FABuffer.h documents it as creating and mapping the buffer with `numOfBytes`
bytes allocated. -/
def ConstantBuffer.CreateConstantBuffer (numOfBytes : Nat) (_b : ConstantBuffer) :
    ConstantBuffer :=
  { allocated := some numOfBytes, mappedData := List.replicate numOfBytes 0 }

/-- Modelled from the spec: the member function `CopyData(index, byteSize, data,
numOfBytes)` of the buffer class, whose definition is not among the sources;
FABuffer.h documents it as copying `numOfBytes` bytes of `data` into the buffer
at the 0-based element `index`. -/
def ConstantBuffer.CopyData (index byteSize : Nat) (data : List Nat) (numOfBytes : Nat)
    (b : ConstantBuffer) : ConstantBuffer :=
  { b with mappedData := b.mappedData.take (index * byteSize) ++ data.take numOfBytes ++
                         b.mappedData.drop (index * byteSize + numOfBytes) }

/-- Modelled from the spec: the member function `CreateConstantBufferView(device,
cbvHeap, cbvSize, cbvHeapIndex, cBufferIndex, numBytes)` of the buffer class,
whose definition is not among the sources; FABuffer.h documents it as creating
the view of the constant data at `cBufferIndex` and storing it in the descriptor
heap at index `cbvHeapIndex`. `frame` identifies the buffer it is called on. -/
def ConstantBuffer.CreateConstantBufferView (frame : Nat) (cbvHeap : Map Nat ConstantBufferView)
    (_cbvSize cbvHeapIndex cBufferIndex numBytes : Nat) : Map Nat ConstantBufferView :=
  cbvHeap.assign cbvHeapIndex { frame := frame, cBufferIndex := cBufferIndex, numBytes := numBytes }

/-- Applies a member function to `mConstantBuffer[i]`; an index outside the array is
outside the model and leaves the scene as it is. -/
def RenderScene.onConstantBuffer (s : RenderScene) (i : Nat)
    (f : ConstantBuffer → ConstantBuffer) : RenderScene :=
  match s.mConstantBuffer[i]? with
  | some b => { s with mConstantBuffer := s.mConstantBuffer.set i (f b) }
  | none => s

/-- Applies a member function of a constant buffer that writes into `mCBVHeap`. -/
def RenderScene.onCBVHeap (s : RenderScene)
    (f : Map Nat ConstantBufferView → Map Nat ConstantBufferView) : RenderScene :=
  { s with mCBVHeap := f s.mCBVHeap }

/-- The function `RenderScene::CreateConstantBuffer` (FARenderScene.cpp, lines 274-280);
`NUM_OF_FRAMES` is the constant `DeviceResources::NUM_OF_FRAMES`. -/
def CreateConstantBuffer (NUM_OF_FRAMES numOfBytes : Nat) : Op RenderScene Unit :=
  Op.write (fun s => (List.range NUM_OF_FRAMES).foldl
    (fun t i => t.onConstantBuffer i (ConstantBuffer.CreateConstantBuffer numOfBytes)) s)

/-- The function `RenderScene::CreateConstantBufferView` (FARenderScene.cpp, lines
282-290); the heap index `(index * NUM_OF_FRAMES) + i` is computed in `UINT`. -/
def CreateConstantBufferView (NUM_OF_FRAMES index numBytes : Nat) : Op RenderScene Unit :=
  Op.write (fun s => (List.range NUM_OF_FRAMES).foldl
    (fun t i => t.onCBVHeap (fun heap => ConstantBuffer.CreateConstantBufferView i heap
      t.cbvSize ((index * NUM_OF_FRAMES + i) % 2 ^ 32) index numBytes)) s)

/-- The function `RenderScene::CopyData` (FARenderScene.cpp, lines 491-494). -/
def CopyData (index byteSize : Nat) (data : List Nat) (numOfBytes : Nat) : Op RenderScene Unit :=
  Op.write (fun s => s.onConstantBuffer s.currentFrame
    (ConstantBuffer.CopyData index byteSize data numOfBytes))

/-- Records a command into the command list. -/
def record (c : Command) : Op RenderScene Unit :=
  Op.write (fun s => { s with commandList := s.commandList ++ [c] })

/-- The descriptor slot `DrawObjects` offsets the heap start by for a draw argument:
`(i.indexOfConstantData * NUM_OF_FRAMES) + GetCurrentFrame()`, a 32-bit value
(FARenderScene.cpp, line 400). -/
def descriptorOffset (NUM_OF_FRAMES currentFrame : Nat) (a : DrawArguments) : Nat :=
  ((a.indexOfConstantData * (NUM_OF_FRAMES : Int) + (currentFrame : Int)) % 2 ^ 32).toNat

/-- Body of the loop of `RenderScene::DrawObjects` for one draw argument
(FARenderScene.cpp, lines 396-406). -/
def drawObject (NUM_OF_FRAMES : Nat) (a : DrawArguments) : Op RenderScene Unit := do
  let s ← Op.read
  let handle : DescriptorHandle :=
    { offsetInDescriptors := descriptorOffset NUM_OF_FRAMES s.currentFrame a
      descriptorIncrementSize := s.cbvSize }
  record (Command.SetGraphicsRootDescriptorTable 0 handle)
  record (Command.DrawIndexedInstanced a.indexCount 1 a.locationOfFirstIndex
    a.indexOfFirstVertex 0)

/-- The range-based `for` loop of `RenderScene::DrawObjects`. -/
def drawObjectsLoop (NUM_OF_FRAMES : Nat) : List DrawArguments → Op RenderScene Unit
  | [] => pure ()
  | a :: rest => do
    drawObject NUM_OF_FRAMES a
    drawObjectsLoop NUM_OF_FRAMES rest

/-- The function `RenderScene::DrawObjects` (FARenderScene.cpp, lines 385-408). -/
def DrawObjects (NUM_OF_FRAMES : Nat) (drawSettingsName : String) : Op RenderScene Unit := do
  let s ← Op.read
  let settings ← Op.lift (s.mSceneObjects.atKey drawSettingsName)
  record (Command.SetPipelineState settings.pipelineState)
  let s ← Op.read
  let settings ← Op.lift (s.mSceneObjects.atKey drawSettingsName)
  record (Command.SetGraphicsRootSignature settings.rootSig)
  let s ← Op.read
  let settings ← Op.lift (s.mSceneObjects.atKey drawSettingsName)
  record (Command.IASetPrimitiveTopology settings.prim)
  let s ← Op.read
  let settings ← Op.lift (s.mSceneObjects.atKey drawSettingsName)
  drawObjectsLoop NUM_OF_FRAMES settings.drawArgs

/-- Whether a command sets the pipeline state, the root signature or the primitive. -/
def Command.isSetup : Command → Bool
  | Command.SetPipelineState _ => true
  | Command.SetGraphicsRootSignature _ => true
  | Command.IASetPrimitiveTopology _ => true
  | _ => false

/-- The scene with further commands recorded into its command list. -/
def RenderScene.withRecorded (s : RenderScene) (commands : List Command) : RenderScene :=
  { s with commandList := s.commandList ++ commands }

/-- The two commands `DrawObjects` records for one draw argument when the current
frame is `currentFrame` and the descriptor size is `cbvSize`. -/
def drawCommands (NUM_OF_FRAMES currentFrame cbvSize : Nat) (a : DrawArguments) : List Command :=
  [Command.SetGraphicsRootDescriptorTable 0
     { offsetInDescriptors := descriptorOffset NUM_OF_FRAMES currentFrame a
       descriptorIncrementSize := cbvSize },
   Command.DrawIndexedInstanced a.indexCount 1 a.locationOfFirstIndex a.indexOfFirstVertex 0]

/-! ## Vocabulary of the statements, and sample inputs -/

/-- A keyed accessor that is a pure key-existence check: run on scene `s` with
outcome `out`, where `stored` is what the store maps the key to and `project`
selects the part handed back, it leaves the scene as it was, returns the stored
value when there is one, and throws `out_of_range` exactly when there is none. -/
def IsKeyCheck {V α : Type} (stored : Option V) (project : V → α) (s : RenderScene)
    (out : Except Exception α × RenderScene) : Prop :=
  out.2 = s ∧
  (∀ v, stored = some v → out.1 = Except.ok (project v)) ∧
  (out.1 = Except.error Exception.out_of_range ↔ stored = none)

/-- The calls `CreateRootSignature` has made once it has serialized the description:
the serialization itself, followed by `OutputDebugStringA` when an error blob
came back (FARenderScene.cpp, lines 207-215). -/
def serializationCalls (api : Vendor) (desc : RootSignatureDesc) : List VendorCall :=
  VendorCall.D3D12SerializeRootSignature desc ::
    (match (api.D3D12SerializeRootSignature desc).2.2 with
     | some error => [VendorCall.OutputDebugStringA error.bytes]
     | none => [])

/-- The generic failure code `E_FAIL`. -/
def E_FAIL : HRESULT := -2147467259

/-- A world in which the shader file holds four bytes and every API call fails. -/
def failingVendor : Vendor :=
  { file := fun _ => some [68, 88, 66, 67]
    backBufferFormat := 28
    depthStencilFormat := 45
    D3DCreateBlob := fun _ => (E_FAIL, { bytes := [] })
    CreateGraphicsPipelineState := fun _ => (E_FAIL, none)
    D3D12SerializeRootSignature := fun _ => (E_FAIL, { bytes := [] }, none)
    CreateRootSignature := fun _ => (E_FAIL, none)
    CreateSolidColorBrush := fun _ => (E_FAIL, none)
    CreateTextFormat := fun _ => (E_FAIL, none)
    SetTextAlignment := E_FAIL
    SetParagraphAlignment := E_FAIL }

/-- A world in which serializing a root signature succeeds and creating it fails. -/
def failingDeviceVendor : Vendor :=
  { failingVendor with
    D3D12SerializeRootSignature := fun _ => (0, { bytes := [1, 2, 3] }, none) }

/-- A scene right after construction: every store is empty. -/
def emptyScene : RenderScene :=
  { mShaders := Map.empty
    mInputElementDescriptions := Map.empty
    mRasterizationStates := Map.empty
    mSceneObjects := Map.empty
    mTexts := Map.empty
    mCBVHeapRootParameter := { NumDescriptors := 0, BaseShaderRegister := 0 } }

/-- A scene with two shaders, an input layout, a rasterization state, one draw
settings entry and one text. -/
def sampleScene : RenderScene :=
  { mShaders := { entries := [("vs", { bytes := [1, 2] }), ("ps", { bytes := [3] })] }
    mInputElementDescriptions := { entries := [("layout",
      [{ semanticName := "POSITION", semanticIndex := 0, format := 6, inputSlot := 0,
         byteOffset := 0 }])] }
    mRasterizationStates := { entries := [("solid", { FillMode := 3, MultisampleEnable := false })] }
    mSceneObjects := { entries := [("shapes",
      { pipelineState := none, rootSig := some 7, prim := 4, drawArgs := [] })] }
    mTexts := { entries := [("fps",
      { textLocation := { x := 0, y := 0, z := 300, w := 50 }, textString := "FPS",
        textSize := 15, textColor := { x := 1, y := 1, z := 1, w := 1 } })] }
    mCBVHeapRootParameter := { NumDescriptors := 3, BaseShaderRegister := 0 } }

/-- A scene with three per-frame constant buffers, current frame 1, and one draw
settings entry holding two draw arguments. -/
def drawingScene : RenderScene :=
  { mShaders := Map.empty
    mInputElementDescriptions := Map.empty
    mRasterizationStates := Map.empty
    mSceneObjects := { entries := [("shapes",
      { pipelineState := some 11, rootSig := some 7, prim := 4,
        drawArgs := [{ indexCount := 36, locationOfFirstIndex := 0, indexOfFirstVertex := 0,
                       indexOfConstantData := 0 },
                     { indexCount := 18, locationOfFirstIndex := 36, indexOfFirstVertex := 24,
                       indexOfConstantData := 1 }] })] }
    mTexts := Map.empty
    mCBVHeapRootParameter := { NumDescriptors := 6, BaseShaderRegister := 0 }
    mConstantBuffer := [{ allocated := some 4, mappedData := [0, 0, 0, 0] },
                        { allocated := some 4, mappedData := [0, 0, 0, 0] },
                        { allocated := some 4, mappedData := [0, 0, 0, 0] }]
    currentFrame := 1
    cbvSize := 32 }

end FARender

/-! # Theorems -/

namespace MVC

/-- Every executed iteration of the loop is the loop body run on what it observed. -/
theorem RunLoop_mem (polls : List Poll) :
    ∀ (msg : MSG) (p : Poll) (calls : List RunCall),
      (p, calls) ∈ (RunLoop msg polls).1 → calls = RunIteration p := by
  induction polls with
  | nil => intro msg p calls h; simp [RunLoop] at h
  | cons q rest ih =>
    intro msg p calls h
    unfold RunLoop at h
    by_cases hq : msg.message = WM_QUIT
    · simp [hq] at h
    · simp only [hq, if_false, List.mem_cons, Prod.mk.injEq] at h
      rcases h with ⟨hp, hc⟩ | h
      · rw [hp, hc]
      · exact ih _ p calls h

/-- C1: in every iteration of the loop of Controller::Run in which no window message
is pending, Tick is called once and is followed by FrameStats, UserInput, Update,
Draw (once each, in this order) exactly when the main window is active; in every
iteration in which a message was dequeued, that message is translated and
dispatched and none of the five is called. -/
theorem Run_iteration_schedule (msg : MSG) (polls : List Poll) (p : Poll)
    (calls : List RunCall) (h : (p, calls) ∈ (RunLoop msg polls).1) :
    (p.peeked = none → p.isMainWindowActive = true →
      calls = [RunCall.Tick, RunCall.FrameStats, RunCall.UserInput, RunCall.Update,
        RunCall.Draw]) ∧
    (p.peeked = none → p.isMainWindowActive = false → calls = [RunCall.Tick]) ∧
    (∀ m, p.peeked = some m →
      calls = [RunCall.TranslateMessage m, RunCall.DispatchMessage m]) := by
  have hc := RunLoop_mem polls msg p calls h
  subst hc
  refine ⟨?_, ?_, ?_⟩
  · intro hp ha; simp [RunIteration, hp, ha]
  · intro hp ha; simp [RunIteration, hp, ha]
  · intro m hp; simp [RunIteration, hp]

/-- The loop of Controller::Run on a script with an idle active pass, an idle inactive
pass and a dequeued message: all three iterations run and obey the schedule. -/
theorem Run_iteration_schedule_witness :
    ({ peeked := none, isMainWindowActive := true },
        [RunCall.Tick, RunCall.FrameStats, RunCall.UserInput, RunCall.Update, RunCall.Draw]) ∈
      (RunLoop { message := 0, wParam := 0 }
        [{ peeked := none, isMainWindowActive := true },
         { peeked := none, isMainWindowActive := false },
         { peeked := some { message := 15, wParam := 0 }, isMainWindowActive := true }]).1 ∧
    ([RunCall.Tick, RunCall.FrameStats, RunCall.UserInput, RunCall.Update, RunCall.Draw] =
      [RunCall.Tick, RunCall.FrameStats, RunCall.UserInput, RunCall.Update, RunCall.Draw]) :=
  ⟨by decide,
   (Run_iteration_schedule { message := 0, wParam := 0 }
      [{ peeked := none, isMainWindowActive := true },
       { peeked := none, isMainWindowActive := false },
       { peeked := some { message := 15, wParam := 0 }, isMainWindowActive := true }]
      { peeked := none, isMainWindowActive := true }
      [RunCall.Tick, RunCall.FrameStats, RunCall.UserInput, RunCall.Update, RunCall.Draw]
      (by decide)).1 rfl rfl⟩

/-- The first chain of Controller::Draw renders no shape. -/
theorem DrawLinkMainPipeline_no_RenderShape (EARTH : Nat) (view : View) :
    ∀ c ∈ DrawLinkMainPipeline EARTH view, c.isRenderShape = false := by
  intro c hc
  unfold DrawLinkMainPipeline at hc
  split_ifs at hc <;> simp at hc <;>
    first | rfl | (subst hc; rfl) | (rcases hc with hc | hc <;> subst hc <;> rfl)

/-- The first chain of Controller::Draw links a pipeline state and root signature. -/
theorem DrawLinkMainPipeline_links (EARTH : Nat) (view : View) :
    ∃ psoKey rootSigKey,
      SceneCall.LinkPSOAndRootSignature psoKey rootSigKey ∈ DrawLinkMainPipeline EARTH view := by
  rcases view with ⟨option, texture, light, shape⟩
  unfold DrawLinkMainPipeline
  cases option <;> by_cases ht : texture = EARTH <;> simp [ht]

/-- The first chain and the point-light block of Controller::Draw issue none of
BeforeRenderObjects, AfterRenderObjects, AfterRender. -/
theorem Draw_inner_no_bracket (EARTH : Nat) (view : View) :
    ∀ c ∈ DrawLinkMainPipeline EARTH view ++ DrawPointLights view,
      c ≠ SceneCall.BeforeRenderObjects ∧ c ≠ SceneCall.AfterRenderObjects ∧
      c ≠ SceneCall.AfterRender := by
  intro c hc
  rcases List.mem_append.mp hc with h | h
  · unfold DrawLinkMainPipeline at h
    split_ifs at h <;> simp at h <;>
      first | (simp; done) | (subst h; simp) | (rcases h with h | h <;> subst h <;> simp)
  · unfold DrawPointLights at h
    split_ifs at h
    · simp only [List.mem_append, List.mem_cons, List.mem_map, List.mem_range] at h
      rcases h with (h | h | h) | ⟨i, _, h⟩
      · subst h; simp
      · subst h; simp
      · simp at h
      · subst h; simp
    · simp at h

/-- C2: in every Controller::Draw call, whatever the render option and the texture,
a LinkPSOAndRootSignature call precedes the first RenderShape call. -/
theorem Draw_links_pipeline_before_first_RenderShape (EARTH : Nat) (view : View) :
    ∃ (before after : List SceneCall) (shape : ShapeRef) (psoKey : PSOKey)
      (rootSigKey : RootSigKey),
      Draw EARTH view = before ++ SceneCall.RenderShape shape :: after ∧
      (∀ c ∈ before, c.isRenderShape = false) ∧
      SceneCall.LinkPSOAndRootSignature psoKey rootSigKey ∈ before := by
  obtain ⟨psoKey, rootSigKey, hlink⟩ := DrawLinkMainPipeline_links EARTH view
  refine ⟨[SceneCall.BeforeRenderObjects, SceneCall.LinkTextureViewHeap] ++
      DrawLinkMainPipeline EARTH view ++
      [SceneCall.LinkStaticBuffer BufferType.VERTEX_BUFFER BufferKey.SHAPES_VERTEX_BUFFER,
       SceneCall.LinkStaticBuffer BufferType.INDEX_BUFFER BufferKey.SHAPES_INDEX_BUFFER,
       SceneCall.LinkDynamicBuffer BufferType.CONSTANT_BUFFER BufferKey.PASSCB 0 1,
       SceneCall.LinkDynamicBuffer BufferType.CONSTANT_BUFFER BufferKey.MATERIALCB 0 2,
       SceneCall.LinkDynamicBuffer BufferType.CONSTANT_BUFFER BufferKey.LIGHTCB 0 3],
    DrawPointLights view ++ [SceneCall.AfterRenderObjects, SceneCall.AfterRender],
    ShapeRef.shape view.currentShape, psoKey, rootSigKey, ?_, ?_, ?_⟩
  · simp [Draw, List.append_assoc]
  · intro c hc
    simp only [List.mem_append, List.mem_cons, List.mem_singleton, List.not_mem_nil,
      or_false] at hc
    rcases hc with (h | h) | h
    · rcases h with h | h <;> subst h <;> rfl
    · exact DrawLinkMainPipeline_no_RenderShape EARTH view c h
    · rcases h with h | h | h | h | h <;> subst h <;> rfl
  · simp [hlink]

/-- C3: for every render option, texture and light-source setting, the scene calls of
one Controller::Draw start with BeforeRenderObjects and end with
AfterRenderObjects immediately followed by AfterRender; each of the three occurs
exactly once; and every RenderShape call sits at a position strictly after
BeforeRenderObjects (position 0) and strictly before AfterRenderObjects (the
last position but one). -/
theorem Draw_brackets_RenderShape (EARTH : Nat) (view : View) :
    ∃ middle : List SceneCall,
      Draw EARTH view =
        SceneCall.BeforeRenderObjects :: middle ++
          [SceneCall.AfterRenderObjects, SceneCall.AfterRender] ∧
      (Draw EARTH view).count SceneCall.BeforeRenderObjects = 1 ∧
      (Draw EARTH view).count SceneCall.AfterRenderObjects = 1 ∧
      (Draw EARTH view).count SceneCall.AfterRender = 1 ∧
      (∀ (i : Nat) (shape : ShapeRef),
        (Draw EARTH view)[i]? = some (SceneCall.RenderShape shape) →
          0 < i ∧ i < (Draw EARTH view).length - 2 ∧
          (Draw EARTH view)[0]? = some SceneCall.BeforeRenderObjects ∧
          (Draw EARTH view)[(Draw EARTH view).length - 2]? =
            some SceneCall.AfterRenderObjects) := by
  have hinner := Draw_inner_no_bracket EARTH view
  have hsplit : Draw EARTH view =
      SceneCall.BeforeRenderObjects ::
        (SceneCall.LinkTextureViewHeap :: DrawLinkMainPipeline EARTH view ++
          [SceneCall.LinkStaticBuffer BufferType.VERTEX_BUFFER BufferKey.SHAPES_VERTEX_BUFFER,
           SceneCall.LinkStaticBuffer BufferType.INDEX_BUFFER BufferKey.SHAPES_INDEX_BUFFER,
           SceneCall.LinkDynamicBuffer BufferType.CONSTANT_BUFFER BufferKey.PASSCB 0 1,
           SceneCall.LinkDynamicBuffer BufferType.CONSTANT_BUFFER BufferKey.MATERIALCB 0 2,
           SceneCall.LinkDynamicBuffer BufferType.CONSTANT_BUFFER BufferKey.LIGHTCB 0 3,
           SceneCall.RenderShape (ShapeRef.shape view.currentShape)] ++
          DrawPointLights view) ++
        [SceneCall.AfterRenderObjects, SceneCall.AfterRender] := by
    simp [Draw, List.append_assoc]
  generalize hm : (SceneCall.LinkTextureViewHeap :: DrawLinkMainPipeline EARTH view ++
          [SceneCall.LinkStaticBuffer BufferType.VERTEX_BUFFER BufferKey.SHAPES_VERTEX_BUFFER,
           SceneCall.LinkStaticBuffer BufferType.INDEX_BUFFER BufferKey.SHAPES_INDEX_BUFFER,
           SceneCall.LinkDynamicBuffer BufferType.CONSTANT_BUFFER BufferKey.PASSCB 0 1,
           SceneCall.LinkDynamicBuffer BufferType.CONSTANT_BUFFER BufferKey.MATERIALCB 0 2,
           SceneCall.LinkDynamicBuffer BufferType.CONSTANT_BUFFER BufferKey.LIGHTCB 0 3,
           SceneCall.RenderShape (ShapeRef.shape view.currentShape)] ++
          DrawPointLights view) = middle at hsplit
  have hmid : ∀ c ∈ middle, c ≠ SceneCall.BeforeRenderObjects ∧
      c ≠ SceneCall.AfterRenderObjects ∧ c ≠ SceneCall.AfterRender := by
    intro c hc
    rw [← hm] at hc
    simp only [List.mem_append, List.mem_cons, List.mem_singleton, List.not_mem_nil,
      or_false] at hc
    rcases hc with ((h | h) | h) | h
    · subst h; simp
    · exact hinner c (List.mem_append.mpr (Or.inl h))
    · rcases h with h | h | h | h | h | h <;> subst h <;> simp
    · exact hinner c (List.mem_append.mpr (Or.inr h))
  have hcount : ∀ x : SceneCall, x ∉ middle → middle.count x = 0 :=
    fun x hx => List.count_eq_zero.mpr hx
  have hB : SceneCall.BeforeRenderObjects ∉ middle := fun h => (hmid _ h).1 rfl
  have hO : SceneCall.AfterRenderObjects ∉ middle := fun h => (hmid _ h).2.1 rfl
  have hR : SceneCall.AfterRender ∉ middle := fun h => (hmid _ h).2.2 rfl
  refine ⟨middle, hsplit, ?_, ?_, ?_, ?_⟩
  · rw [hsplit]; simp [List.count_cons, List.count_append, hcount _ hB]
  · rw [hsplit]; simp [List.count_cons, List.count_append, hcount _ hO]
  · rw [hsplit]; simp [List.count_cons, List.count_append, hcount _ hR]
  · intro i shape hi
    rw [hsplit] at hi ⊢
    have hlen : (SceneCall.BeforeRenderObjects :: middle ++
        [SceneCall.AfterRenderObjects, SceneCall.AfterRender]).length = middle.length + 3 := by
      simp
    rw [hlen]
    have hlt : i < middle.length + 3 := by
      have := (List.getElem?_eq_some_iff.mp hi).1
      rw [hlen] at this
      exact this
    refine ⟨?_, ?_, by simp, ?_⟩
    · rcases Nat.eq_zero_or_pos i with h0 | h0
      · subst h0; simp at hi
      · exact h0
    · by_contra hge
      have hcases : i = middle.length + 1 ∨ i = middle.length + 2 := by omega
      rcases hcases with h1 | h1
      · subst h1
        rw [List.cons_append, List.getElem?_cons_succ,
          List.getElem?_append_right (le_refl _)] at hi
        simp at hi
      · subst h1
        rw [List.cons_append, List.getElem?_cons_succ,
          List.getElem?_append_right (Nat.le_succ _)] at hi
        simp at hi
    · have : middle.length + 3 - 2 = middle.length + 1 := by omega
      rw [this, List.cons_append, List.getElem?_cons_succ,
        List.getElem?_append_right (le_refl _)]
      simp

end MVC

namespace FARender

/-! ## Unfolding the operation monad -/

theorem Op.bind_eq {σ α β : Type} (m : Op σ α) (f : α → Op σ β) : (m >>= f) = Op.seq m f := rfl

theorem Op.pure_eq {σ α : Type} (a : α) : (pure a : Op σ α) = Op.ret a := rfl

/-- A lookup with `at` either finds the mapped value or throws `out_of_range`. -/
theorem Map.atKey_cases {K V : Type} [DecidableEq K] (m : Map K V) (key : K) :
    (∃ v, m.find? key = some v ∧ m.atKey key = Except.ok v) ∨
    (m.find? key = none ∧ m.atKey key = Except.error Exception.out_of_range) := by
  unfold Map.atKey
  cases h : m.find? key with
  | none => exact Or.inr ⟨rfl, rfl⟩
  | some v => exact Or.inl ⟨v, rfl, rfl⟩

theorem Map.atKey_of_find?_none {K V : Type} [DecidableEq K] (m : Map K V) (key : K)
    (h : m.find? key = none) : m.atKey key = Except.error Exception.out_of_range := by
  unfold Map.atKey; rw [h]

theorem Map.atKey_of_find?_some {K V : Type} [DecidableEq K] (m : Map K V) (key : K) (v : V)
    (h : m.find? key = some v) : m.atKey key = Except.ok v := by
  unfold Map.atKey; rw [h]

/-- C4: RenderScene::AfterDraw issues exactly three device operations, in the order
Present, UpdateCurrentFrameFenceValue, Signal, returns normally and changes
nothing else; in particular the fence signal comes after the present. -/
theorem AfterDraw_presents_then_signals (s : RenderScene) :
    (AfterDraw s).1 = Except.ok () ∧
    (AfterDraw s).2.deviceCalls = s.deviceCalls ++
      [DeviceCall.Present, DeviceCall.UpdateCurrentFrameFenceValue, DeviceCall.Signal] ∧
    (AfterDraw s).2 = { s with deviceCalls := (AfterDraw s).2.deviceCalls } ∧
    ((AfterDraw s).2.deviceCalls.drop s.deviceCalls.length).indexOf DeviceCall.Present <
      ((AfterDraw s).2.deviceCalls.drop s.deviceCalls.length).indexOf DeviceCall.Signal := by
  refine ⟨rfl, rfl, rfl, ?_⟩
  simp [AfterDraw, Op.write]

/-- An accessor that reads the scene and looks a key up is a key-existence check. -/
theorem IsKeyCheck_lookup {V α : Type} (store : RenderScene → Map String V) (project : V → α)
    (key : String) (s : RenderScene) :
    IsKeyCheck ((store s).find? key) project s
      (Op.seq Op.read (fun t => Op.seq (Op.lift ((store t).atKey key))
        (fun v => Op.ret (project v))) s) := by
  unfold IsKeyCheck
  rcases Map.atKey_cases (store s) key with ⟨v, hf, ha⟩ | ⟨hf, ha⟩
  · simp [Op.seq, Op.read, Op.lift, Op.ret, ha, hf]
  · simp [Op.seq, Op.read, Op.lift, Op.ret, ha, hf]

/-- An accessor that reads the scene and hands back what the lookup gives is a
key-existence check. -/
theorem IsKeyCheck_lookup_id {V : Type} (store : RenderScene → Map String V)
    (key : String) (s : RenderScene) :
    IsKeyCheck ((store s).find? key) id s
      (Op.seq Op.read (fun t => Op.lift ((store t).atKey key)) s) := by
  unfold IsKeyCheck
  rcases Map.atKey_cases (store s) key with ⟨v, hf, ha⟩ | ⟨hf, ha⟩
  · simp [Op.seq, Op.read, Op.lift, ha, hf]
  · simp [Op.seq, Op.read, Op.lift, ha, hf]

/-- C6: each keyed accessor of RenderScene (GetShader, GetInputElementLayout,
GetRasterizationState, GetPSO, GetRootSignature, GetPrimitive, GetText) is a pure
key-existence check: it returns the value stored under the key when the key is
mapped, throws out_of_range if and only if the key is not mapped, and leaves the
scene unchanged (the missing key is not inserted). -/
theorem keyed_accessors_are_key_checks (s : RenderScene) (key : String) :
    IsKeyCheck (s.mShaders.find? key) id s (GetShader key s) ∧
    IsKeyCheck (s.mInputElementDescriptions.find? key) id s (GetInputElementLayout key s) ∧
    IsKeyCheck (s.mRasterizationStates.find? key) id s (GetRasterizationState key s) ∧
    IsKeyCheck (s.mSceneObjects.find? key) DrawSettings.pipelineState s (GetPSO key s) ∧
    IsKeyCheck (s.mSceneObjects.find? key) DrawSettings.rootSig s (GetRootSignature key s) ∧
    IsKeyCheck (s.mSceneObjects.find? key) DrawSettings.prim s (GetPrimitive key s) ∧
    IsKeyCheck (s.mTexts.find? key) id s (GetText key s) := by
  refine ⟨?_, ?_, ?_, ?_, ?_, ?_, ?_⟩
  · exact IsKeyCheck_lookup_id (fun t => t.mShaders) key s
  · exact IsKeyCheck_lookup_id (fun t => t.mInputElementDescriptions) key s
  · exact IsKeyCheck_lookup_id (fun t => t.mRasterizationStates) key s
  · exact IsKeyCheck_lookup (fun t => t.mSceneObjects) DrawSettings.pipelineState key s
  · exact IsKeyCheck_lookup (fun t => t.mSceneObjects) DrawSettings.rootSig key s
  · exact IsKeyCheck_lookup (fun t => t.mSceneObjects) DrawSettings.prim key s
  · exact IsKeyCheck_lookup_id (fun t => t.mTexts) key s

/-- RemoveShader returns normally on every scene and every key. -/
theorem RemoveShader_returns (shaderName : String) (s : RenderScene) :
    (RemoveShader shaderName s).1 = Except.ok () := rfl

/-- C7, evaluated on the code: on a scene in which no shader is mapped, RemoveShader
of a key returns normally and leaves the scene as it was; no out_of_range
exception is thrown. -/
theorem RemoveShader_unmapped_key_does_not_throw :
    emptyScene.mShaders.find? "missing" = none ∧
    RemoveShader "missing" emptyScene = (Except.ok (), emptyScene) ∧
    (RemoveShader "missing" emptyScene).1 ≠ Except.error Exception.out_of_range := by
  refine ⟨rfl, rfl, ?_⟩
  intro h
  cases h

/-- C8: CreatePSO throws out_of_range when the draw-settings name that holds the root
signature, the vertex-shader key, the pixel-shader key or the input-layout key
has no mapped value; the scene is left as it was and the device is not called. -/
theorem CreatePSO_unmapped_key_throws (api : Vendor)
    (drawSettingsName rStateName vsName psName inputLayoutName : String)
    (primitiveType sampleCount : Nat) (s : RenderScene)
    (h : s.mShaders.find? vsName = none ∨ s.mShaders.find? psName = none ∨
      s.mInputElementDescriptions.find? inputLayoutName = none ∨
      s.mSceneObjects.find? drawSettingsName = none) :
    CreatePSO api drawSettingsName rStateName vsName psName inputLayoutName primitiveType
      sampleCount s = (Except.error Exception.out_of_range, s) := by
  simp only [CreatePSO, Op.bind_eq, Op.seq, Op.read, Op.lift]
  rcases Map.atKey_cases s.mSceneObjects drawSettingsName with ⟨v1, hf1, ha1⟩ | ⟨hf1, ha1⟩
  · rcases Map.atKey_cases s.mShaders vsName with ⟨v2, hf2, ha2⟩ | ⟨hf2, ha2⟩
    · rcases Map.atKey_cases s.mShaders psName with ⟨v3, hf3, ha3⟩ | ⟨hf3, ha3⟩
      · rcases Map.atKey_cases s.mRasterizationStates rStateName with ⟨v4, hf4, ha4⟩ | ⟨hf4, ha4⟩
        · rcases Map.atKey_cases s.mInputElementDescriptions inputLayoutName with
            ⟨v5, hf5, ha5⟩ | ⟨hf5, ha5⟩
          · simp [hf1, hf2, hf3, hf5] at h
          · simp [ha1, ha2, ha3, ha4, ha5]
        · simp [ha1, ha2, ha3, ha4]
      · simp [ha1, ha2, ha3]
    · simp [ha1, ha2]
  · simp [ha1]

/-- CreatePSO with an unmapped pixel-shader key on the sample scene. -/
theorem CreatePSO_unmapped_key_throws_witness :
    sampleScene.mShaders.find? "missing" = none ∧
    CreatePSO failingVendor "shapes" "solid" "vs" "missing" "layout" 3 1 sampleScene =
      (Except.error Exception.out_of_range, sampleScene) :=
  ⟨by decide, CreatePSO_unmapped_key_throws failingVendor "shapes" "solid" "vs" "missing"
    "layout" 3 1 sampleScene (Or.inr (Or.inl (by decide)))⟩

/-- C10: RenderText throws out_of_range whenever the text key is not mapped to a Text
object, and the scene is then as before: no brush, text format or draw-text call
has been issued. -/
theorem RenderText_unmapped_key_throws (api : Vendor) (textName : String) (s : RenderScene)
    (h : s.mTexts.find? textName = none) :
    RenderText api textName s = (Except.error Exception.out_of_range, s) ∧
    (RenderText api textName s).2.vendorCalls = s.vendorCalls := by
  have hat := Map.atKey_of_find?_none s.mTexts textName h
  have hrun : RenderText api textName s = (Except.error Exception.out_of_range, s) := by
    simp [RenderText, Op.bind_eq, Op.seq, Op.read, Op.lift, hat]
  rw [hrun]
  exact ⟨rfl, rfl⟩

/-- RenderText with an unmapped key on the sample scene. -/
theorem RenderText_unmapped_key_throws_witness :
    sampleScene.mTexts.find? "missing" = none ∧
    RenderText failingVendor "missing" sampleScene =
      (Except.error Exception.out_of_range, sampleScene) :=
  ⟨by decide, (RenderText_unmapped_key_throws failingVendor "missing" sampleScene
    (by decide)).1⟩

/-- C5: for LoadShader, CreatePSO and CreateRootSignature, whenever the API call
wrapped in ThrowIfFailed returns a failing result code, the operation throws the
exception carrying that code, the failing call has been made exactly once (the
call log grows by that one call; for CreateRootSignature, by the calls that lead
up to it as well), and nothing is stored: the scene, and with it the shader map
and every draw settings entry, is otherwise the same as before the call. -/
theorem failed_vendor_call_throws_and_stores_nothing (api : Vendor) (s : RenderScene) :
    (∀ filename name : String,
      FAILED (api.D3DCreateBlob (shaderFileSize api filename)).1 = true →
      LoadShader api filename name s =
        (Except.error (Exception.DirectXException
            (api.D3DCreateBlob (shaderFileSize api filename)).1),
          { s with vendorCalls := s.vendorCalls ++
              [VendorCall.D3DCreateBlob (shaderFileSize api filename)] })) ∧
    (∀ (drawSettingsName rStateName vsName psName inputLayoutName : String)
        (primitiveType sampleCount : Nat) (settings : DrawSettings) (vs ps : Blob)
        (rasterizer : RasterizerDesc) (layout : List InputElementDesc),
      s.mSceneObjects.find? drawSettingsName = some settings →
      s.mShaders.find? vsName = some vs →
      s.mShaders.find? psName = some ps →
      s.mRasterizationStates.find? rStateName = some rasterizer →
      s.mInputElementDescriptions.find? inputLayoutName = some layout →
      FAILED (api.CreateGraphicsPipelineState (pipelineStateDescription api settings vs ps
        rasterizer layout primitiveType sampleCount)).1 = true →
      CreatePSO api drawSettingsName rStateName vsName psName inputLayoutName primitiveType
          sampleCount s =
        (Except.error (Exception.DirectXException
            (api.CreateGraphicsPipelineState (pipelineStateDescription api settings vs ps
              rasterizer layout primitiveType sampleCount)).1),
          { s with vendorCalls := s.vendorCalls ++
              [VendorCall.CreateGraphicsPipelineState (pipelineStateDescription api settings
                vs ps rasterizer layout primitiveType sampleCount)] })) ∧
    (∀ drawSettingsName : String,
      FAILED (api.D3D12SerializeRootSignature
        { pParameters := [s.mCBVHeapRootParameter] }).1 = true →
      CreateRootSignature api drawSettingsName s =
        (Except.error (Exception.DirectXException
            (api.D3D12SerializeRootSignature { pParameters := [s.mCBVHeapRootParameter] }).1),
          { s with vendorCalls := s.vendorCalls ++
              serializationCalls api { pParameters := [s.mCBVHeapRootParameter] } })) ∧
    (∀ drawSettingsName : String,
      FAILED (api.D3D12SerializeRootSignature
        { pParameters := [s.mCBVHeapRootParameter] }).1 = false →
      FAILED (api.CreateRootSignature (api.D3D12SerializeRootSignature
        { pParameters := [s.mCBVHeapRootParameter] }).2.1).1 = true →
      CreateRootSignature api drawSettingsName s =
        (Except.error (Exception.DirectXException
            (api.CreateRootSignature (api.D3D12SerializeRootSignature
              { pParameters := [s.mCBVHeapRootParameter] }).2.1).1),
          { s with vendorCalls := s.vendorCalls ++
              (serializationCalls api { pParameters := [s.mCBVHeapRootParameter] } ++
                [VendorCall.CreateRootSignature (api.D3D12SerializeRootSignature
                  { pParameters := [s.mCBVHeapRootParameter] }).2.1]) })) := by
  refine ⟨?_, ?_, ?_, ?_⟩
  · intro filename name hfail
    simp [LoadShader, Op.bind_eq, Op.seq, call, Op.write, ThrowIfFailed, hfail, Op.throw]
  · intro ds rs vsName psName il pt sc settings vs ps rasterizer layout h1 h2 h3 h4 h5 hfail
    simp [CreatePSO, Op.bind_eq, Op.seq, Op.read, Op.lift, call, Op.write, ThrowIfFailed,
      Op.throw, hfail, Map.atKey_of_find?_some _ _ _ h1, Map.atKey_of_find?_some _ _ _ h2,
      Map.atKey_of_find?_some _ _ _ h3, Map.atKey_of_find?_some _ _ _ h4,
      Map.atKey_of_find?_some _ _ _ h5]
  · intro ds hfail
    cases herr : (api.D3D12SerializeRootSignature { pParameters := [s.mCBVHeapRootParameter] }).2.2 <;>
    simp [CreateRootSignature, Op.bind_eq, Op.pure_eq, Op.ret, Op.seq, Op.read, call, Op.write,
      ThrowIfFailed, Op.throw, hfail, herr, serializationCalls]
  · intro ds hok hfail
    cases herr : (api.D3D12SerializeRootSignature { pParameters := [s.mCBVHeapRootParameter] }).2.2 <;>
    simp [CreateRootSignature, Op.bind_eq, Op.pure_eq, Op.ret, Op.seq, Op.read, call, Op.write,
      ThrowIfFailed, Op.throw, hok, hfail, herr, serializationCalls]

/-- The three operations on the sample scene in a world whose API calls fail: each
throws the exception carrying `E_FAIL`, logs the one failing call, and stores
nothing. -/
theorem failed_vendor_call_throws_and_stores_nothing_witness :
    LoadShader failingVendor "shader.cso" "vs" sampleScene =
      (Except.error (Exception.DirectXException E_FAIL),
        { sampleScene with vendorCalls := [VendorCall.D3DCreateBlob 4] }) ∧
    CreatePSO failingVendor "shapes" "solid" "vs" "ps" "layout" 3 1 sampleScene =
      (Except.error (Exception.DirectXException E_FAIL),
        { sampleScene with vendorCalls := [VendorCall.CreateGraphicsPipelineState
            { pRootSignature := some 7, VS := [1, 2], PS := [3],
              RasterizerState := { FillMode := 3, MultisampleEnable := false },
              InputLayout := [{ semanticName := "POSITION", semanticIndex := 0,
                                format := 6, inputSlot := 0, byteOffset := 0 }],
              PrimitiveTopologyType := 3, RTVFormat := 28, DSVFormat := 45,
              SampleCount := 1 }] }) ∧
    CreateRootSignature failingVendor "shapes" sampleScene =
      (Except.error (Exception.DirectXException E_FAIL),
        { sampleScene with vendorCalls := [VendorCall.D3D12SerializeRootSignature
            { pParameters := [{ NumDescriptors := 3, BaseShaderRegister := 0 }] }] }) ∧
    CreateRootSignature failingDeviceVendor "shapes" sampleScene =
      (Except.error (Exception.DirectXException E_FAIL),
        { sampleScene with vendorCalls := [VendorCall.D3D12SerializeRootSignature
            { pParameters := [{ NumDescriptors := 3, BaseShaderRegister := 0 }] },
          VendorCall.CreateRootSignature { bytes := [1, 2, 3] }] }) :=
  ⟨(failed_vendor_call_throws_and_stores_nothing failingVendor sampleScene).1
      "shader.cso" "vs" (by decide),
   (failed_vendor_call_throws_and_stores_nothing failingVendor sampleScene).2.1
      "shapes" "solid" "vs" "ps" "layout" 3 1
      { pipelineState := none, rootSig := some 7, prim := 4, drawArgs := [] }
      { bytes := [1, 2] } { bytes := [3] } { FillMode := 3, MultisampleEnable := false }
      [{ semanticName := "POSITION", semanticIndex := 0, format := 6, inputSlot := 0,
         byteOffset := 0 }]
      (by decide) (by decide) (by decide) (by decide) (by decide) (by decide),
   (failed_vendor_call_throws_and_stores_nothing failingVendor sampleScene).2.2.1
      "shapes" (by decide),
   (failed_vendor_call_throws_and_stores_nothing failingDeviceVendor sampleScene).2.2.2
      "shapes" (by decide) (by decide)⟩

end FARender

namespace FARender

/-! ## DrawObjects -/

/-- The loop of DrawObjects returns normally and appends, for each draw argument in
list order, its descriptor-table command and its draw command. -/
theorem drawObjectsLoop_run (NUM_OF_FRAMES : Nat) (args : List DrawArguments) :
    ∀ s : RenderScene, drawObjectsLoop NUM_OF_FRAMES args s =
      (Except.ok (), s.withRecorded
        (args.flatMap (drawCommands NUM_OF_FRAMES s.currentFrame s.cbvSize))) := by
  induction args with
  | nil => intro s; simp [drawObjectsLoop, Op.pure_eq, Op.ret, RenderScene.withRecorded]
  | cons a rest ih =>
    intro s
    simp [drawObjectsLoop, drawObject, Op.bind_eq, Op.seq, Op.read, record, Op.write, ih,
      drawCommands, List.append_assoc, RenderScene.withRecorded]

/-- DrawObjects on a mapped draw-settings name: the outcome in full. -/
theorem DrawObjects_mapped (NUM_OF_FRAMES : Nat) (drawSettingsName : String) (s : RenderScene)
    (settings : DrawSettings) (h : s.mSceneObjects.find? drawSettingsName = some settings) :
    DrawObjects NUM_OF_FRAMES drawSettingsName s =
      (Except.ok (), s.withRecorded
        ([Command.SetPipelineState settings.pipelineState,
          Command.SetGraphicsRootSignature settings.rootSig,
          Command.IASetPrimitiveTopology settings.prim] ++
         settings.drawArgs.flatMap (drawCommands NUM_OF_FRAMES s.currentFrame s.cbvSize))) := by
  have hat := Map.atKey_of_find?_some s.mSceneObjects drawSettingsName settings h
  simp [DrawObjects, Op.bind_eq, Op.seq, Op.read, Op.lift, record, Op.write, hat,
    drawObjectsLoop_run, List.append_assoc, RenderScene.withRecorded]

/-- The draw commands among those recorded for a list of draw arguments are one
DrawIndexedInstanced per argument, in list order. -/
theorem filter_isDraw_drawCommands (NUM_OF_FRAMES currentFrame cbvSize : Nat)
    (args : List DrawArguments) :
    (args.flatMap (drawCommands NUM_OF_FRAMES currentFrame cbvSize)).filter Command.isDraw =
      args.map (fun a => Command.DrawIndexedInstanced a.indexCount 1 a.locationOfFirstIndex
        a.indexOfFirstVertex 0) := by
  induction args with
  | nil => rfl
  | cons a rest ih =>
    simp only [List.flatMap_cons, List.filter_append, ih, List.map_cons]
    simp [drawCommands, Command.isDraw]

/-- C11: DrawObjects called with a draw-settings name that is not mapped throws
out_of_range and the scene is as before: no SetPipelineState,
SetGraphicsRootSignature, IASetPrimitiveTopology or draw call has been recorded
into the command list. -/
theorem DrawObjects_unmapped_name_throws (NUM_OF_FRAMES : Nat) (drawSettingsName : String)
    (s : RenderScene) (h : s.mSceneObjects.find? drawSettingsName = none) :
    DrawObjects NUM_OF_FRAMES drawSettingsName s = (Except.error Exception.out_of_range, s) ∧
    (DrawObjects NUM_OF_FRAMES drawSettingsName s).2.commandList = s.commandList := by
  have hat := Map.atKey_of_find?_none s.mSceneObjects drawSettingsName h
  have hrun : DrawObjects NUM_OF_FRAMES drawSettingsName s =
      (Except.error Exception.out_of_range, s) := by
    simp [DrawObjects, Op.bind_eq, Op.seq, Op.read, Op.lift, hat]
  rw [hrun]
  exact ⟨rfl, rfl⟩

/-- DrawObjects with an unmapped name on the scene with draw arguments. -/
theorem DrawObjects_unmapped_name_throws_witness :
    drawingScene.mSceneObjects.find? "missing" = none ∧
    DrawObjects 3 "missing" drawingScene = (Except.error Exception.out_of_range, drawingScene) :=
  ⟨by decide, (DrawObjects_unmapped_name_throws 3 "missing" drawingScene (by decide)).1⟩

/-- None of the commands recorded for draw arguments sets pipeline state, root
signature or primitive. -/
theorem filter_isSetup_drawCommands (NUM_OF_FRAMES currentFrame cbvSize : Nat)
    (args : List DrawArguments) :
    (args.flatMap (drawCommands NUM_OF_FRAMES currentFrame cbvSize)).filter Command.isSetup =
      [] := by
  induction args with
  | nil => rfl
  | cons a rest ih =>
    simp only [List.flatMap_cons, List.filter_append, ih]
    simp [drawCommands, Command.isSetup]

/-- C13: DrawObjects on a mapped draw-settings name holding the draw arguments
a_0, ..., a_(n-1) returns normally and records SetPipelineState,
SetGraphicsRootSignature and IASetPrimitiveTopology once each, followed for each
argument in list order by its descriptor-table command and its draw command; the
draw calls recorded are exactly DrawIndexedInstanced(a_j.indexCount, 1,
a_j.locationOfFirstIndex, a_j.indexOfFirstVertex, 0) for j = 0, ..., n-1 in this
order, and none when the list is empty. -/
theorem DrawObjects_forwards_draw_arguments (NUM_OF_FRAMES : Nat) (drawSettingsName : String)
    (s : RenderScene) (settings : DrawSettings)
    (h : s.mSceneObjects.find? drawSettingsName = some settings) :
    (DrawObjects NUM_OF_FRAMES drawSettingsName s).1 = Except.ok () ∧
    (DrawObjects NUM_OF_FRAMES drawSettingsName s).2.commandList =
      s.commandList ++
        ([Command.SetPipelineState settings.pipelineState,
          Command.SetGraphicsRootSignature settings.rootSig,
          Command.IASetPrimitiveTopology settings.prim] ++
         settings.drawArgs.flatMap (drawCommands NUM_OF_FRAMES s.currentFrame s.cbvSize)) ∧
    (((DrawObjects NUM_OF_FRAMES drawSettingsName s).2.commandList.drop
        s.commandList.length).filter Command.isSetup =
      [Command.SetPipelineState settings.pipelineState,
       Command.SetGraphicsRootSignature settings.rootSig,
       Command.IASetPrimitiveTopology settings.prim]) ∧
    (((DrawObjects NUM_OF_FRAMES drawSettingsName s).2.commandList.drop
        s.commandList.length).filter Command.isDraw =
      settings.drawArgs.map (fun a => Command.DrawIndexedInstanced a.indexCount 1
        a.locationOfFirstIndex a.indexOfFirstVertex 0)) ∧
    (settings.drawArgs = [] →
      ((DrawObjects NUM_OF_FRAMES drawSettingsName s).2.commandList.drop
        s.commandList.length).filter Command.isDraw = []) := by
  have hrun := DrawObjects_mapped NUM_OF_FRAMES drawSettingsName s settings h
  have hdraw := filter_isDraw_drawCommands NUM_OF_FRAMES s.currentFrame s.cbvSize
    settings.drawArgs
  have hsetup := filter_isSetup_drawCommands NUM_OF_FRAMES s.currentFrame s.cbvSize
    settings.drawArgs
  rw [hrun]
  refine ⟨rfl, rfl, ?_, ?_, ?_⟩
  · simp only [RenderScene.withRecorded, List.drop_left]
    rw [List.filter_append, hsetup]
    simp [Command.isSetup]
  · simp only [RenderScene.withRecorded, List.drop_left]
    rw [List.filter_append, hdraw]
    simp [Command.isDraw]
  · intro hempty
    simp only [RenderScene.withRecorded, List.drop_left]
    rw [List.filter_append, hdraw, hempty]
    simp [Command.isDraw]

/-- DrawObjects on the scene whose draw settings hold two draw arguments, at current
frame 1 with three frames: the five conclusions, the recorded draw calls being
the two stored arguments in order. -/
theorem DrawObjects_forwards_draw_arguments_witness :
    drawingScene.mSceneObjects.find? "shapes" = some
      { pipelineState := some 11, rootSig := some 7, prim := 4,
        drawArgs := [{ indexCount := 36, locationOfFirstIndex := 0, indexOfFirstVertex := 0,
                       indexOfConstantData := 0 },
                     { indexCount := 18, locationOfFirstIndex := 36, indexOfFirstVertex := 24,
                       indexOfConstantData := 1 }] } ∧
    ((DrawObjects 3 "shapes" drawingScene).2.commandList.drop
        drawingScene.commandList.length).filter Command.isDraw =
      [Command.DrawIndexedInstanced 36 1 0 0 0, Command.DrawIndexedInstanced 18 1 36 24 0] :=
  ⟨by decide, (DrawObjects_forwards_draw_arguments 3 "shapes" drawingScene
      { pipelineState := some 11, rootSig := some 7, prim := 4,
        drawArgs := [{ indexCount := 36, locationOfFirstIndex := 0, indexOfFirstVertex := 0,
                       indexOfConstantData := 0 },
                     { indexCount := 18, locationOfFirstIndex := 36, indexOfFirstVertex := 24,
                       indexOfConstantData := 1 }] } (by decide)).2.2.2.1⟩

/-! ## Per-frame constant buffers -/

/-- Applying a member function to one element of the array changes that element
only. -/
theorem onConstantBuffer_getElem? (s : RenderScene) (i j : Nat)
    (f : ConstantBuffer → ConstantBuffer) :
    (s.onConstantBuffer i f).mConstantBuffer[j]? =
      if j = i then (s.mConstantBuffer[j]?).map f else s.mConstantBuffer[j]? := by
  unfold RenderScene.onConstantBuffer
  cases hb : s.mConstantBuffer[i]? with
  | none =>
    by_cases hji : j = i
    · subst hji; simp [hb]
    · simp [hji]
  | some b =>
    by_cases hji : j = i
    · subst hji
      have hlt : j < s.mConstantBuffer.length := (List.getElem?_eq_some_iff.mp hb).1
      simp [hb, List.getElem?_set_self hlt]
    · have hne : i ≠ j := fun h => hji h.symm
      simp [hji, List.getElem?_set_ne hne]

/-- The loop of CreateConstantBuffer applies the member function to the first `n`
elements of the array and to no other. -/
theorem foldl_onConstantBuffer_getElem? (f : ConstantBuffer → ConstantBuffer) (n : Nat)
    (s : RenderScene) (j : Nat) :
    ((List.range n).foldl (fun t i => t.onConstantBuffer i f) s).mConstantBuffer[j]? =
      if j < n then (s.mConstantBuffer[j]?).map f else s.mConstantBuffer[j]? := by
  induction n with
  | zero => simp
  | succ n ih =>
    rw [List.range_succ, List.foldl_append, List.foldl_cons, List.foldl_nil,
      onConstantBuffer_getElem?, ih]
    by_cases hjn : j = n
    · subst hjn; simp
    · have h1 : j < n + 1 ↔ j < n := by omega
      simp [hjn, h1]

/-- C12: each frame has its own constant buffer. On a scene whose array
mConstantBuffer has NUM_OF_FRAMES elements, CreateConstantBuffer returns with
exactly NUM_OF_FRAMES buffers, each created with the requested number of bytes;
and when the current frame is below NUM_OF_FRAMES, CopyData returns, writes into
the buffer of the current frame, and leaves the buffer of every other frame f
as it was. -/
theorem constant_buffers_are_per_frame (NUM_OF_FRAMES numOfBytes : Nat) (s : RenderScene)
    (hlen : s.mConstantBuffer.length = NUM_OF_FRAMES) :
    (CreateConstantBuffer NUM_OF_FRAMES numOfBytes s).1 = Except.ok () ∧
    (CreateConstantBuffer NUM_OF_FRAMES numOfBytes s).2.mConstantBuffer =
      List.replicate NUM_OF_FRAMES
        { allocated := some numOfBytes, mappedData := List.replicate numOfBytes 0 } ∧
    (∀ (index byteSize : Nat) (data : List Nat) (n : Nat),
      s.currentFrame < NUM_OF_FRAMES →
      (CopyData index byteSize data n s).1 = Except.ok () ∧
      (CopyData index byteSize data n s).2.mConstantBuffer[s.currentFrame]? =
        (s.mConstantBuffer[s.currentFrame]?).map (ConstantBuffer.CopyData index byteSize data n) ∧
      (∀ f : Nat, f ≠ s.currentFrame →
        (CopyData index byteSize data n s).2.mConstantBuffer[f]? = s.mConstantBuffer[f]?)) := by
  refine ⟨rfl, ?_, ?_⟩
  · apply List.ext_getElem?
    intro j
    simp only [CreateConstantBuffer, Op.write]
    rw [foldl_onConstantBuffer_getElem?, List.getElem?_replicate]
    by_cases hj : j < NUM_OF_FRAMES
    · have hj2 : j < s.mConstantBuffer.length := by omega
      simp [hj, List.getElem?_eq_getElem hj2, ConstantBuffer.CreateConstantBuffer]
    · have hj2 : s.mConstantBuffer.length ≤ j := by omega
      simp [hj, List.getElem?_eq_none hj2]
  · intro index byteSize data n _
    refine ⟨rfl, ?_, ?_⟩
    · simp only [CopyData, Op.write]
      rw [onConstantBuffer_getElem?]
      simp
    · intro f hf
      simp only [CopyData, Op.write]
      rw [onConstantBuffer_getElem?]
      simp [hf]

/-- The scene with three constant buffers at current frame 1: CreateConstantBuffer
makes three buffers of 8 bytes, and CopyData of two bytes changes the buffer of
frame 1 and leaves those of frames 0 and 2 as they were. -/
theorem constant_buffers_are_per_frame_witness :
    drawingScene.mConstantBuffer.length = 3 ∧ drawingScene.currentFrame < 3 ∧
    (CreateConstantBuffer 3 8 drawingScene).2.mConstantBuffer =
      List.replicate 3 { allocated := some 8, mappedData := List.replicate 8 0 } ∧
    (CopyData 1 2 [9, 9] 2 drawingScene).2.mConstantBuffer =
      [{ allocated := some 4, mappedData := [0, 0, 0, 0] },
       { allocated := some 4, mappedData := [0, 0, 9, 9] },
       { allocated := some 4, mappedData := [0, 0, 0, 0] }] ∧
    (CopyData 1 2 [9, 9] 2 drawingScene).2.mConstantBuffer[0]? =
      drawingScene.mConstantBuffer[0]? :=
  ⟨by decide, by decide,
   (constant_buffers_are_per_frame 3 8 drawingScene (by decide)).2.1,
   by decide,
   ((constant_buffers_are_per_frame 3 8 drawingScene (by decide)).2.2 1 2 [9, 9] 2
      (by decide)).2.2 0 (by decide)⟩

/-! ## Descriptor heap slots -/

/-- After `m[key] = v` the key is mapped to `v`. -/
theorem Map.find?_assign_self {K V : Type} [DecidableEq K] (m : Map K V) (key : K) (v : V) :
    (m.assign key v).find? key = some v := by
  simp [Map.assign, Map.find?]

/-- Looking up a key in a list of entries from which another key was filtered out. -/
theorem find?_filter_ne {K V : Type} [DecidableEq K] (entries : List (K × V)) (key other : K)
    (h : other ≠ key) :
    (entries.filter (fun e => decide (e.1 ≠ key))).find? (fun e => decide (e.1 = other)) =
      entries.find? (fun e => decide (e.1 = other)) := by
  induction entries with
  | nil => rfl
  | cons e rest ih =>
    by_cases hk : e.1 = key
    · have ho : ¬ e.1 = other := fun ho => h (ho ▸ hk)
      have h1 : decide (e.1 ≠ key) = false := by simp [hk]
      have h2 : decide (e.1 = other) = false := by simp [ho]
      simp only [List.filter_cons, List.find?_cons, h1, h2, Bool.false_eq_true, if_false]
      exact ih
    · have h1 : decide (e.1 ≠ key) = true := by simp [hk]
      simp only [List.filter_cons, List.find?_cons, h1, if_true]
      generalize decide (e.1 = other) = d
      cases d
      · exact ih
      · rfl

/-- After `m[key] = v` every other key is mapped as before. -/
theorem Map.find?_assign_ne {K V : Type} [DecidableEq K] (m : Map K V) (key other : K) (v : V)
    (h : other ≠ key) : (m.assign key v).find? other = m.find? other := by
  have hne : ¬ key = other := fun hk => h hk.symm
  simp only [Map.assign, Map.find?, Map.erase, List.find?_cons]
  simp only [hne, decide_False]
  rw [find?_filter_ne m.entries key other h]

/-- The loop of CreateConstantBufferView changes the heap by one assignment per
frame. -/
theorem foldl_onCBVHeap (NUM_OF_FRAMES index numBytes : Nat) (frames : List Nat) :
    ∀ s : RenderScene,
      (frames.foldl (fun t i => t.onCBVHeap (fun heap =>
          ConstantBuffer.CreateConstantBufferView i heap t.cbvSize
            ((index * NUM_OF_FRAMES + i) % 2 ^ 32) index numBytes)) s).mCBVHeap =
        frames.foldl (fun heap i => heap.assign ((index * NUM_OF_FRAMES + i) % 2 ^ 32)
          { frame := i, cBufferIndex := index, numBytes := numBytes }) s.mCBVHeap := by
  induction frames with
  | nil => intro s; rfl
  | cons i rest ih =>
    intro s
    rw [List.foldl_cons, List.foldl_cons, ih]
    rfl

/-- After the assignments for frames 0, ..., n-1 the slot of every frame below `n`
holds the view of that frame. -/
theorem foldl_assign_find? (base index numBytes : Nat) (heap : Map Nat ConstantBufferView)
    (n : Nat) (hn : n ≤ 2 ^ 32) (f : Nat) (hf : f < n) :
    ((List.range n).foldl (fun h i => h.assign ((base + i) % 2 ^ 32)
        { frame := i, cBufferIndex := index, numBytes := numBytes }) heap).find?
      ((base + f) % 2 ^ 32) =
      some { frame := f, cBufferIndex := index, numBytes := numBytes } := by
  induction n with
  | zero => omega
  | succ n ih =>
    rw [List.range_succ, List.foldl_append, List.foldl_cons, List.foldl_nil]
    by_cases hfn : f = n
    · subst hfn
      exact Map.find?_assign_self _ _ _
    · have hlt : f < n := by omega
      have hne : (base + f) % 2 ^ 32 ≠ (base + n) % 2 ^ 32 := by omega
      rw [Map.find?_assign_ne _ _ _ _ hne]
      exact ih (by omega) hlt

/-- The slot DrawObjects computes for a draw argument whose constant-data index is
the natural number `k`. -/
theorem descriptorOffset_eq (NUM_OF_FRAMES currentFrame k : Nat) (a : DrawArguments)
    (ha : a.indexOfConstantData = (k : Int)) :
    descriptorOffset NUM_OF_FRAMES currentFrame a = (k * NUM_OF_FRAMES + currentFrame) % 2 ^ 32 := by
  unfold descriptorOffset
  rw [ha]
  have hcast : ((k : Int) * (NUM_OF_FRAMES : Int) + (currentFrame : Int)) =
      ((k * NUM_OF_FRAMES + currentFrame : Nat) : Int) := by
    push_cast
    ring
  rw [hcast]
  omega

/-- C15: for every constant-data index k and every frame f below NUM_OF_FRAMES, the
descriptor-heap slot DrawObjects binds for a draw argument with constant-data
index k while the current frame is f is the 32-bit value of
k * NUM_OF_FRAMES + f (the number itself when it is below 2^32), and it is the
slot in which CreateConstantBufferView(k, numBytes) stored the view of frame f's
constant buffer for constant-data index k. -/
theorem bound_descriptor_slot_is_view_slot (NUM_OF_FRAMES k numBytes f : Nat)
    (hN : NUM_OF_FRAMES ≤ 2 ^ 32) (hf : f < NUM_OF_FRAMES) (s : RenderScene)
    (a : DrawArguments) (ha : a.indexOfConstantData = (k : Int)) :
    descriptorOffset NUM_OF_FRAMES f a = (k * NUM_OF_FRAMES + f) % 2 ^ 32 ∧
    (k * NUM_OF_FRAMES + f < 2 ^ 32 → descriptorOffset NUM_OF_FRAMES f a = k * NUM_OF_FRAMES + f) ∧
    (CreateConstantBufferView NUM_OF_FRAMES k numBytes s).2.mCBVHeap.find?
        (descriptorOffset NUM_OF_FRAMES f a) =
      some { frame := f, cBufferIndex := k, numBytes := numBytes } ∧
    (∀ (t : RenderScene) (drawSettingsName : String) (settings : DrawSettings),
      t.currentFrame = f →
      t.mSceneObjects.find? drawSettingsName = some settings →
      a ∈ settings.drawArgs →
      Command.SetGraphicsRootDescriptorTable 0
          { offsetInDescriptors := descriptorOffset NUM_OF_FRAMES f a,
            descriptorIncrementSize := t.cbvSize } ∈
        (DrawObjects NUM_OF_FRAMES drawSettingsName t).2.commandList) := by
  have hslot := descriptorOffset_eq NUM_OF_FRAMES f k a ha
  refine ⟨hslot, ?_, ?_, ?_⟩
  · intro hsmall
    rw [hslot]
    exact Nat.mod_eq_of_lt hsmall
  · rw [hslot]
    simp only [CreateConstantBufferView, Op.write]
    rw [foldl_onCBVHeap]
    exact foldl_assign_find? (k * NUM_OF_FRAMES) k numBytes s.mCBVHeap NUM_OF_FRAMES hN f hf
  · intro t name settings hframe hmapped hmem
    rw [DrawObjects_mapped NUM_OF_FRAMES name t settings hmapped]
    simp only [RenderScene.withRecorded, List.mem_append, List.mem_flatMap]
    refine Or.inr (Or.inr ⟨a, hmem, ?_⟩)
    simp [drawCommands, hframe]

/-- Three frames, constant-data index 1, frame 1: the slot is 4; it holds the view
of frame 1 after CreateConstantBufferView(1, 256), and DrawObjects on the
scene at current frame 1 binds slot 4 for its second draw argument. -/
theorem bound_descriptor_slot_is_view_slot_witness :
    (3 : Nat) ≤ 2 ^ 32 ∧ (1 : Nat) < 3 ∧
    descriptorOffset 3 1 { indexCount := 18, locationOfFirstIndex := 36, indexOfFirstVertex := 24,
                           indexOfConstantData := 1 } = 1 * 3 + 1 ∧
    (CreateConstantBufferView 3 1 256 drawingScene).2.mCBVHeap.find? 4 =
      some { frame := 1, cBufferIndex := 1, numBytes := 256 } ∧
    Command.SetGraphicsRootDescriptorTable 0
        { offsetInDescriptors := 4, descriptorIncrementSize := 32 } ∈
      (DrawObjects 3 "shapes" drawingScene).2.commandList := by
  have h := bound_descriptor_slot_is_view_slot 3 1 256 1 (by decide) (by decide) drawingScene
    { indexCount := 18, locationOfFirstIndex := 36, indexOfFirstVertex := 24,
      indexOfConstantData := 1 } rfl
  have hoff : descriptorOffset 3 1
      { indexCount := 18, locationOfFirstIndex := 36, indexOfFirstVertex := 24,
        indexOfConstantData := 1 } = 4 := h.2.1 (by decide)
  refine ⟨by decide, by decide, h.2.1 (by decide), ?_, ?_⟩
  · have h3 := h.2.2.1
    rw [hoff] at h3
    exact h3
  · have h4 := h.2.2.2 drawingScene "shapes" _ rfl rfl (by simp)
    rw [hoff] at h4
    exact h4

end FARender

namespace MVC

/-! ## FrameStats -/

set_option maxRecDepth 100000

/-- The calls for the main shape are the two opening calls, the first chain of
Controller::Draw, and the five buffer links. -/
theorem mainShapeCalls_eq (EARTH : Nat) (view : View) :
    mainShapeCalls EARTH view =
      [SceneCall.BeforeRenderObjects, SceneCall.LinkTextureViewHeap] ++
        DrawLinkMainPipeline EARTH view ++
        [SceneCall.LinkStaticBuffer BufferType.VERTEX_BUFFER BufferKey.SHAPES_VERTEX_BUFFER,
         SceneCall.LinkStaticBuffer BufferType.INDEX_BUFFER BufferKey.SHAPES_INDEX_BUFFER,
         SceneCall.LinkDynamicBuffer BufferType.CONSTANT_BUFFER BufferKey.PASSCB 0 1,
         SceneCall.LinkDynamicBuffer BufferType.CONSTANT_BUFFER BufferKey.MATERIALCB 0 2,
         SceneCall.LinkDynamicBuffer BufferType.CONSTANT_BUFFER BufferKey.LIGHTCB 0 3] := by
  have hsplit : Draw EARTH view =
      ([SceneCall.BeforeRenderObjects, SceneCall.LinkTextureViewHeap] ++
        DrawLinkMainPipeline EARTH view ++
        [SceneCall.LinkStaticBuffer BufferType.VERTEX_BUFFER BufferKey.SHAPES_VERTEX_BUFFER,
         SceneCall.LinkStaticBuffer BufferType.INDEX_BUFFER BufferKey.SHAPES_INDEX_BUFFER,
         SceneCall.LinkDynamicBuffer BufferType.CONSTANT_BUFFER BufferKey.PASSCB 0 1,
         SceneCall.LinkDynamicBuffer BufferType.CONSTANT_BUFFER BufferKey.MATERIALCB 0 2,
         SceneCall.LinkDynamicBuffer BufferType.CONSTANT_BUFFER BufferKey.LIGHTCB 0 3]) ++
      (SceneCall.RenderShape (ShapeRef.shape view.currentShape) ::
        (DrawPointLights view ++ [SceneCall.AfterRenderObjects, SceneCall.AfterRender])) := by
    simp [Draw, List.append_assoc]
  unfold mainShapeCalls
  rw [hsplit, List.takeWhile_append_of_pos]
  · simp [SceneCall.isRenderShape]
  · intro c hc
    simp only [List.mem_append, List.mem_cons, List.mem_singleton, List.not_mem_nil,
      or_false] at hc
    rcases hc with (h | h) | h
    · rcases h with h | h <;> subst h <;> rfl
    · simp [DrawLinkMainPipeline_no_RenderShape EARTH view c h]
    · rcases h with h | h | h | h | h <;> subst h <;> rfl

/-- C16: the pipeline state and root signature Controller::Draw links for the main
shape are determined by the render option and the texture: TEXTURES_PLUS_SHADING
with EARTH gives (EARTH_SHADING_PSO, EARTH_SHADING_ROOT_SIG), with any other
texture (MOON_SUN_SHADING_PSO, MOON_SUN_SHADING_ROOT_SIG);
TEXTURES_PLUS_NO_SHADING gives (EARTH_MOON_SUN_NO_SHADING_PSO,
EARTH_MOON_SUN_NO_SHADING_ROOT_SIG); COLOR_PLUS_SHADING, COLOR_PLUS_NO_SHADING and
WIREFRAME give COLOR_SHADING_PSO, COLOR_NO_SHADING_PSO and WIREFRAME_PSO, each
with COLOR_SHADING_ROOT_SIG; in every case this is the only link before the
main shape is rendered, and a texture is linked for the main shape exactly in
the two TEXTURES options. -/
theorem Draw_main_shape_pipeline_selection (EARTH : Nat) (view : View) :
    (view.currentRenderOption = RenderOption.TEXTURES_PLUS_SHADING →
      view.currentTexture = EARTH →
      mainShapePipeline EARTH view =
        [SceneCall.LinkPSOAndRootSignature PSOKey.EARTH_SHADING_PSO
          RootSigKey.EARTH_SHADING_ROOT_SIG]) ∧
    (view.currentRenderOption = RenderOption.TEXTURES_PLUS_SHADING →
      view.currentTexture ≠ EARTH →
      mainShapePipeline EARTH view =
        [SceneCall.LinkPSOAndRootSignature PSOKey.MOON_SUN_SHADING_PSO
          RootSigKey.MOON_SUN_SHADING_ROOT_SIG]) ∧
    (view.currentRenderOption = RenderOption.TEXTURES_PLUS_NO_SHADING →
      mainShapePipeline EARTH view =
        [SceneCall.LinkPSOAndRootSignature PSOKey.EARTH_MOON_SUN_NO_SHADING_PSO
          RootSigKey.EARTH_MOON_SUN_NO_SHADING_ROOT_SIG]) ∧
    (view.currentRenderOption = RenderOption.COLOR_PLUS_SHADING →
      mainShapePipeline EARTH view =
        [SceneCall.LinkPSOAndRootSignature PSOKey.COLOR_SHADING_PSO
          RootSigKey.COLOR_SHADING_ROOT_SIG]) ∧
    (view.currentRenderOption = RenderOption.COLOR_PLUS_NO_SHADING →
      mainShapePipeline EARTH view =
        [SceneCall.LinkPSOAndRootSignature PSOKey.COLOR_NO_SHADING_PSO
          RootSigKey.COLOR_SHADING_ROOT_SIG]) ∧
    (view.currentRenderOption = RenderOption.WIREFRAME →
      mainShapePipeline EARTH view =
        [SceneCall.LinkPSOAndRootSignature PSOKey.WIREFRAME_PSO
          RootSigKey.COLOR_SHADING_ROOT_SIG]) ∧
    ((mainShapeCalls EARTH view).any SceneCall.isLinkTexture = true ↔
      (view.currentRenderOption = RenderOption.TEXTURES_PLUS_SHADING ∨
       view.currentRenderOption = RenderOption.TEXTURES_PLUS_NO_SHADING)) := by
  rcases view with ⟨option, texture, light, shape⟩
  unfold mainShapePipeline
  rw [mainShapeCalls_eq]
  refine ⟨?_, ?_, ?_, ?_, ?_, ?_, ?_⟩
  · intro ho ht
    simp only at ho ht
    subst ho ht
    simp [DrawLinkMainPipeline, SceneCall.isLinkPSOAndRootSignature]
  · intro ho ht
    simp only at ho ht
    subst ho
    simp [DrawLinkMainPipeline, SceneCall.isLinkPSOAndRootSignature, ht]
  · intro ho
    simp only at ho
    subst ho
    by_cases ht : texture = EARTH <;>
    simp [DrawLinkMainPipeline, SceneCall.isLinkPSOAndRootSignature, ht]
  · intro ho
    simp only at ho
    subst ho
    simp [DrawLinkMainPipeline, SceneCall.isLinkPSOAndRootSignature]
  · intro ho
    simp only at ho
    subst ho
    simp [DrawLinkMainPipeline, SceneCall.isLinkPSOAndRootSignature]
  · intro ho
    simp only at ho
    subst ho
    simp [DrawLinkMainPipeline, SceneCall.isLinkPSOAndRootSignature]
  · cases option <;> by_cases ht : texture = EARTH <;>
    simp [DrawLinkMainPipeline, SceneCall.isLinkTexture, ht]

/-- The selection at the moon texture (1, with EARTH = 0) under
TEXTURES_PLUS_SHADING, and at WIREFRAME. -/
theorem Draw_main_shape_pipeline_selection_witness :
    mainShapePipeline 0
        { currentRenderOption := RenderOption.TEXTURES_PLUS_SHADING, currentTexture := 1,
          currentLightSource := 0, currentShape := 2 } =
      [SceneCall.LinkPSOAndRootSignature PSOKey.MOON_SUN_SHADING_PSO
        RootSigKey.MOON_SUN_SHADING_ROOT_SIG] ∧
    mainShapePipeline 0
        { currentRenderOption := RenderOption.WIREFRAME, currentTexture := 1,
          currentLightSource := 0, currentShape := 2 } =
      [SceneCall.LinkPSOAndRootSignature PSOKey.WIREFRAME_PSO RootSigKey.COLOR_SHADING_ROOT_SIG] :=
  ⟨(Draw_main_shape_pipeline_selection 0
      { currentRenderOption := RenderOption.TEXTURES_PLUS_SHADING, currentTexture := 1,
        currentLightSource := 0, currentShape := 2 }).2.1 rfl (by decide),
   (Draw_main_shape_pipeline_selection 0
      { currentRenderOption := RenderOption.WIREFRAME, currentTexture := 1,
        currentLightSource := 0, currentShape := 2 }).2.2.2.2.2.1 rfl⟩

end MVC
